import Mathlib

/-!
Shallow embedding of the OfferttoolRMB extraction / fusion / validation
pipeline, translated from:

* src/backend/app/services/data_merging_service.py
* src/backend/app/services/validation_service.py
* src/backend/app/parsers/excel_parser.py

Modelling conventions:

* Python JSON-shaped values (`None`, `str`, numbers, `list`, `dict`)
  become the inductive type `Val`.  Dicts are association lists that keep
  insertion order, exactly like Python 3 dicts: item assignment replaces
  the value in place for an existing key and appends a fresh key.
* Machine floats are modelled as exact rationals `Q` (an integer
  numerator with a natural-number denominator, compared by
  cross-multiplication, so `20.0 == 20` holds just as for Python
  numbers).  All constructed denominators are positive.
* `difflib.SequenceMatcher(None, a, b).ratio()` is kept abstract as a
  parameter `sim : String → String → Q` threaded through the
  duplicate-detection functions; every theorem below holds for an
  arbitrary similarity function, hence in particular for difflib's.
* Python code that would raise on data shaped differently from what the
  pipeline ever produces (e.g. `{**source_info, **x}` with a non-dict
  `x`) is modelled by the total defaulting helpers `asObjD` / `asListD`;
  the comments at those call sites record the corresponding source
  behaviour.
-/

namespace OffertTool

/-- Exact rational number standing in for a Python `int`/`float` value:
numerator and (positive, by construction) denominator, not necessarily
reduced. -/
structure Q where
  n : Int
  d : Nat
deriving DecidableEq

/-- Integer literal as a `Q`. -/
def Q.ofInt (n : Int) : Q := ⟨n, 1⟩

/-- Python numeric equality `a == b` via cross-multiplication. -/
def Q.eqb (a b : Q) : Bool := a.n * (b.d : Int) == b.n * (a.d : Int)

/-- Python `a < b` on numbers. -/
def Q.ltb (a b : Q) : Bool := a.n * (b.d : Int) < b.n * (a.d : Int)

/-- Python `a <= b` on numbers. -/
def Q.leb (a b : Q) : Bool := a.n * (b.d : Int) ≤ b.n * (a.d : Int)

/-- Python `a > b` on numbers. -/
def Q.gtb (a b : Q) : Bool := Q.ltb b a

/-- Python `a - b` on numbers. -/
def Q.sub (a b : Q) : Q := ⟨a.n * (b.d : Int) - b.n * (a.d : Int), a.d * b.d⟩

/-- Python `abs a` on numbers. -/
def Q.abs (a : Q) : Q := ⟨|a.n|, a.d⟩

/-- Python truthiness of a number (`0` and `0.0` are falsy). -/
def Q.truthy (a : Q) : Bool := !(a.n == 0)

/-- JSON-shaped Python value: `None`, `str`, `int`/`float`, `list`,
`dict`.  Dates and other objects that only ever flow through the
embedded code as rendered text are represented by `str`. -/
inductive Val where
  | null : Val
  | str : String → Val
  | num : Q → Val
  | list : List Val → Val
  | obj : List (String × Val) → Val

/-- Association list representing a Python dict (insertion ordered). -/
abbrev Obj := List (String × Val)

mutual

/-- Python `==` on values: numbers compare numerically, lists and dicts
structurally, different types are unequal (as for JSON-shaped data). -/
def Val.beq : Val → Val → Bool
  | .null, .null => true
  | .str a, .str b => a == b
  | .num a, .num b => Q.eqb a b
  | .list xs, .list ys => Val.beqL xs ys
  | .obj xs, .obj ys => Val.beqO xs ys
  | _, _ => false
termination_by structural v => v

/-- Python `==` on lists of values. -/
def Val.beqL : List Val → List Val → Bool
  | [], [] => true
  | x :: xs, y :: ys => Val.beq x y && Val.beqL xs ys
  | _, _ => false
termination_by structural v => v

/-- Python `==` on dicts (insertion order is compared too; the embedded
code only ever compares scalars, where this agrees with Python). -/
def Val.beqO : List (String × Val) → List (String × Val) → Bool
  | [], [] => true
  | (k, x) :: xs, (l, y) :: ys => k == l && Val.beq x y && Val.beqO xs ys
  | _, _ => false
termination_by structural v => v

end

/-- Python truthiness of a value. -/
def Val.truthy : Val → Bool
  | .null => false
  | .str s => !(s == "")
  | .num q => q.truthy
  | .list xs => !xs.isEmpty
  | .obj xs => !xs.isEmpty

/-- Python `str(v)` as far as the embedded code depends on it.  String
values are rendered exactly; integers are rendered exactly; non-integer
numbers are rendered as `n/d` (the pipeline never branches on the digits
of a float's rendering, only on its non-emptiness); containers and
`None` are rendered as the placeholders shown. -/
def pyStr : Val → String
  | .null => "None"
  | .str s => s
  | .num q => if q.d == 1 then toString q.n else toString q.n ++ "/" ++ toString q.d
  | .list _ => "<list>"
  | .obj _ => "<dict>"

/-- Python `d[k]` / `d.get(k)` as an `Option`. -/
def getKey (o : Obj) (k : String) : Option Val :=
  (o.find? (fun p => p.1 == k)).map (fun p => p.2)

/-- Python `d.get(k, default)`. -/
def getKeyD (o : Obj) (k : String) (dflt : Val) : Val := (getKey o k).getD dflt

/-- Python `d.get(k)` (default `None`). -/
def getV (o : Obj) (k : String) : Val := getKeyD o k .null

/-- Python `k in d`. -/
def hasKey (o : Obj) (k : String) : Bool := o.any (fun p => p.1 == k)

/-- Python `d[k] = v`: replace in place if the key exists, else append. -/
def setKey (o : Obj) (k : String) (v : Val) : Obj :=
  if hasKey o k then o.map (fun p => if p.1 == k then (k, v) else p)
  else o ++ [(k, v)]

/-- Python `{**a, **b}`: start from `a`, then write every entry of `b`. -/
def objUnion (a b : Obj) : Obj := b.foldl (fun acc p => setKey acc p.1 p.2) a

/-- Defaulting view of a value as a dict.  The embedded code only applies
it where the source has already ensured a dict (or crashes otherwise on
impossible data). -/
def asObjD : Val → Obj
  | .obj o => o
  | _ => []

/-- Defaulting view of a value as a list, analogous to `asObjD`. -/
def asListD : Val → List Val
  | .list xs => xs
  | _ => []

/-- Python `x in xs` for a list of values. -/
def valMem (x : Val) (xs : List Val) : Bool := xs.any (fun y => Val.beq y x)

/-- Append `x` unless already present (`if x not in xs: xs.append(x)`). -/
def addUnique (xs : List Val) (x : Val) : List Val :=
  if valMem x xs then xs else xs ++ [x]

/-- Python `list(set(xs))`: deduplicate.  CPython's set order is
hash-dependent; we keep first-occurrence order, on which nothing in the
source or the claims depends. -/
def dedupFirst (xs : List Val) : List Val := xs.foldl addUnique []

/-- Python `s.lower()` (ASCII case folding, which covers the source's
keyword tables; non-ASCII case folding is not modelled). -/
def pyLower (s : String) : String := ⟨s.data.map Char.toLower⟩

/-- Python `s.strip()`. -/
def pyStrip (s : String) : String :=
  ⟨((s.data.dropWhile Char.isWhitespace).reverse.dropWhile Char.isWhitespace).reverse⟩

/-- Python `s.replace(a, b)` for one-character patterns, the only form
the source uses (`replace(' ', '_')` and `replace(',', '.')`). -/
def pyReplaceChar (s : String) (a b : Char) : String :=
  ⟨s.data.map (fun c => if c == a then b else c)⟩

/-- Python `s.lower()` composed with `.get(k, "")`, as used by the
duplicate finders (`raum.get("name", "").lower()`); a non-string value
would raise `AttributeError` in the source. -/
def strFieldLower (o : Obj) (k : String) : String :=
  pyLower (match getKeyD o k (.str "") with
           | .str s => s
           | _ => "")

/-! ## Data merging service (`data_merging_service.py`) -/

/-- Minimal file metadata the merging service reads from a `ProjectFile`
row.  `upload_date` is carried in its already-rendered ISO form. -/
structure ProjectFile where
  id : Int
  original_filename : String
  upload_date : Option String
  file_type : String
  revision : Option String

/-- The `source_info` dict built at the top of `merge_extracted_data`. -/
def sourceInfo (f : ProjectFile) : Obj :=
  [("datei", .str f.original_filename),
   ("datei_id", .num (Q.ofInt f.id)),
   ("upload_am", match f.upload_date with | some s => .str s | none => .null)]

/-- The recurring statement `e["quelle"] = {**source_info, **e.get("quelle", {})}`
applied to each incoming entity, image, raw table and metadata dict. -/
def stampQuelle (si : Obj) (e : Obj) : Obj :=
  setKey e "quelle" (.obj (objUnion si (asObjD (getKeyD e "quelle" (.obj [])))))

/-- The entries the `_merge_*_entities` functions append to the target's
`quelle` list: the incoming entity's `quelle` value, spliced if it is
itself a list and wrapped otherwise (nothing when absent). -/
def quelleAdds (new : Obj) : List Val :=
  match getKey new "quelle" with
  | none => []
  | some (.list xs) => xs
  | some v => [v]

/-- The target's `quelle` normalised to a list: `[]` when absent, kept
when already a list, wrapped in a singleton list otherwise. -/
def quelleBase (existing : Obj) : List Val :=
  match getKey existing "quelle" with
  | none => []
  | some (.list xs) => xs
  | some v => [v]

/-- The provenance-merging prologue shared by every `_merge_*_entities`
function: normalise the target's `quelle` to a list, then extend or
append the incoming entity's `quelle`. -/
def mergeQuelleInto (existing new : Obj) : Obj :=
  setKey existing "quelle" (.list (quelleBase existing ++ quelleAdds new))

/-- The value of `existing.get("quelle", {})` at conflict-recording time.
When the target already held a `quelle` list, `merged["quelle"]` aliases
it and the in-place `.extend` is visible through `existing` too, so the
recorded value includes the freshly appended entries. -/
def quelleAltVal (existing new : Obj) : Val :=
  match getKey existing "quelle" with
  | none => .obj []
  | some (.list xs) => .list (xs ++ quelleAdds new)
  | some v => v

/-- A single entry of `merged["konflikte"]` as written by
`_merge_raum_entities`. -/
def conflictRecord (alt neu : Q) (qAlt qNeu : Val) : Val :=
  .obj [("alt", .num alt), ("neu", .num neu),
        ("quelle_alt", qAlt), ("quelle_neu", qNeu)]

/-- One iteration of the field loop of `_merge_raum_entities`: skip
`quelle` and `id`; skip `None` values; adopt the value when the target
lacks the field or holds `None`; when both sides are numeric and differ
by more than `0.01`, keep the target's value and record a conflict under
`merged["konflikte"][key]` (creating the dict when absent; the source
would raise on a non-dict `konflikte`, see `asObjD`). -/
def raumFieldStep (quelleAlt quelleNeu : Val) (merged : Obj) (kv : String × Val) : Obj :=
  if kv.1 == "quelle" || kv.1 == "id" then merged
  else match kv.2 with
  | .null => merged
  | v =>
    match getKey merged kv.1 with
    | none => setKey merged kv.1 v
    | some .null => setKey merged kv.1 v
    | some old =>
      match v, old with
      | .num a, .num b =>
        if ((Q.sub a b).abs.gtb ⟨1, 100⟩) then
          setKey merged "konflikte"
            (.obj (setKey (asObjD (getV merged "konflikte")) kv.1
              (conflictRecord b a quelleAlt quelleNeu)))
        else merged
      | _, _ => merged

/-- Translation of `_merge_raum_entities`. -/
def mergeRaumEntities (existing new : Obj) : Obj :=
  new.foldl
    (raumFieldStep (quelleAltVal existing new) (getKeyD new "quelle" (.obj [])))
    (mergeQuelleInto existing new)

/-- One iteration of the field loop of `_merge_anlage_entities`: like the
device loop, except that the two relationship-list fields are unioned
(`list(set(old + new))`) when the target already holds a value.  No
conflict is ever recorded here. -/
def anlageFieldStep (merged : Obj) (kv : String × Val) : Obj :=
  if kv.1 == "quelle" || kv.1 == "id" then merged
  else match kv.2 with
  | .null => merged
  | v =>
    match getKey merged kv.1 with
    | none => setKey merged kv.1 v
    | some .null => setKey merged kv.1 v
    | some old =>
      if kv.1 == "zugehoerige_raeume" || kv.1 == "zugehoerige_geraete" then
        setKey merged kv.1 (.list (dedupFirst (asListD old ++
          (match v with | .list xs => xs | w => [w]))))
      else merged

/-- Translation of `_merge_anlage_entities`. -/
def mergeAnlageEntities (existing new : Obj) : Obj :=
  new.foldl anlageFieldStep (mergeQuelleInto existing new)

/-- One iteration of the field loop of `_merge_geraet_entities`:
first-non-null wins, an existing non-null value is never replaced and no
conflict is recorded. -/
def geraetFieldStep (merged : Obj) (kv : String × Val) : Obj :=
  if kv.1 == "quelle" || kv.1 == "id" then merged
  else match kv.2 with
  | .null => merged
  | v =>
    match getKey merged kv.1 with
    | none => setKey merged kv.1 v
    | some .null => setKey merged kv.1 v
    | some _ => merged

/-- Translation of `_merge_geraet_entities`. -/
def mergeGeraetEntities (existing new : Obj) : Obj :=
  new.foldl geraetFieldStep (mergeQuelleInto existing new)

/-- Translation of `_merge_termin_entities` (provenance accumulation
only). -/
def mergeTerminEntities (existing new : Obj) : Obj :=
  mergeQuelleInto existing new

/-- Predicate under `_find_duplicate_raum`'s loop: exact id, IFC GUID,
exact lowered name or number, or name similarity above `0.8`. -/
def isDuplicateRaum (sim : String → String → Q) (raum existing : Obj) : Bool :=
  let raum_id := getKeyD raum "id" (.str "")
  let raum_name := strFieldLower raum "name"
  let raum_nummer := strFieldLower raum "nummer"
  let raum_ifc_guid := getV raum "ifc_guid"
  let existing_name := strFieldLower existing "name"
  let existing_nummer := strFieldLower existing "nummer"
  Val.beq (getV existing "id") raum_id
  || (raum_ifc_guid.truthy && Val.beq (getV existing "ifc_guid") raum_ifc_guid)
  || (!(raum_name == "") && !(existing_name == "") && raum_name == existing_name)
  || (!(raum_nummer == "") && !(existing_nummer == "") && raum_nummer == existing_nummer)
  || (!(raum_name == "") && !(existing_name == "") && (sim raum_name existing_name).gtb ⟨8, 10⟩)

/-- Translation of `_find_duplicate_raum` (index of the first match). -/
def findDuplicateRaumIdx (sim : String → String → Q) (raum : Obj)
    (existing : List Obj) : Option Nat :=
  existing.findIdx? (isDuplicateRaum sim raum)

/-- Predicate under `_find_duplicate_anlage`'s loop. -/
def isDuplicateAnlage (sim : String → String → Q) (anlage existing : Obj) : Bool :=
  let anlage_id := getKeyD anlage "id" (.str "")
  let anlage_name := strFieldLower anlage "name"
  let anlage_ifc_guid := getV anlage "ifc_guid"
  let anlage_system_id := getV anlage "system_id"
  let existing_name := strFieldLower existing "name"
  Val.beq (getV existing "id") anlage_id
  || (anlage_ifc_guid.truthy && Val.beq (getV existing "ifc_guid") anlage_ifc_guid)
  || (anlage_system_id.truthy && Val.beq (getV existing "system_id") anlage_system_id)
  || (!(anlage_name == "") && !(existing_name == "") && (sim anlage_name existing_name).gtb ⟨8, 10⟩)

/-- Translation of `_find_duplicate_anlage`. -/
def findDuplicateAnlageIdx (sim : String → String → Q) (anlage : Obj)
    (existing : List Obj) : Option Nat :=
  existing.findIdx? (isDuplicateAnlage sim anlage)

/-- Predicate under `_find_duplicate_geraet`'s loop: exact id, IFC GUID,
exact lowered name, or same lowered type with name similarity above
`0.7`. -/
def isDuplicateGeraet (sim : String → String → Q) (geraet existing : Obj) : Bool :=
  let geraet_id := getKeyD geraet "id" (.str "")
  let geraet_name := strFieldLower geraet "name"
  let geraet_ifc_guid := getV geraet "ifc_guid"
  let geraet_typ := strFieldLower geraet "typ"
  let existing_name := strFieldLower existing "name"
  let existing_typ := strFieldLower existing "typ"
  Val.beq (getV existing "id") geraet_id
  || (geraet_ifc_guid.truthy && Val.beq (getV existing "ifc_guid") geraet_ifc_guid)
  || (!(geraet_name == "") && !(existing_name == "") && geraet_name == existing_name)
  || (!(geraet_typ == "") && !(existing_typ == "") && geraet_typ == existing_typ
      && (sim geraet_name existing_name).gtb ⟨7, 10⟩)

/-- Translation of `_find_duplicate_geraet`. -/
def findDuplicateGeraetIdx (sim : String → String → Q) (geraet : Obj)
    (existing : List Obj) : Option Nat :=
  existing.findIdx? (isDuplicateGeraet sim geraet)

/-- Predicate under `_find_duplicate_termin`'s loop: description
similarity above `0.9` together with an identical date. -/
def isDuplicateTermin (sim : String → String → Q) (termin existing : Obj) : Bool :=
  let tb := strFieldLower termin "beschreibung"
  let eb := strFieldLower existing "beschreibung"
  !(tb == "") && !(eb == "") && (sim tb eb).gtb ⟨9, 10⟩
    && Val.beq (getV termin "termin_datum") (getV existing "termin_datum")

/-- Translation of `_find_duplicate_termin`. -/
def findDuplicateTerminIdx (sim : String → String → Q) (termin : Obj)
    (existing : List Obj) : Option Nat :=
  existing.findIdx? (isDuplicateTermin sim termin)

/-- One iteration of the loop shared by `_merge_raeume` /
`_merge_anlagen` / `_merge_geraete` / `_merge_termine`: stamp the
incoming entity's provenance, then merge it into the first duplicate
(if any) or append it. -/
def mergeEntityStep (findDup : Obj → List Obj → Option Nat)
    (mergeEnt : Obj → Obj → Obj) (si : Obj) (merged : List Obj) (n0 : Obj) : List Obj :=
  let n := stampQuelle si n0
  match findDup n merged with
  | some idx => merged.set idx (mergeEnt (merged.getD idx []) n)
  | none => merged ++ [n]

/-- The loop shared by `_merge_raeume` / `_merge_anlagen` /
`_merge_geraete` / `_merge_termine`. -/
def mergeEntityLoop (findDup : Obj → List Obj → Option Nat)
    (mergeEnt : Obj → Obj → Obj) (si : Obj) (current news : List Obj) : List Obj :=
  news.foldl (mergeEntityStep findDup mergeEnt si) current

/-- Translation of `_merge_raeume`. -/
def mergeRaeume (sim : String → String → Q) (current news : List Obj) (si : Obj) : List Obj :=
  mergeEntityLoop (findDuplicateRaumIdx sim) mergeRaumEntities si current news

/-- Translation of `_merge_anlagen`. -/
def mergeAnlagen (sim : String → String → Q) (current news : List Obj) (si : Obj) : List Obj :=
  mergeEntityLoop (findDuplicateAnlageIdx sim) mergeAnlageEntities si current news

/-- Translation of `_merge_geraete`. -/
def mergeGeraete (sim : String → String → Q) (current news : List Obj) (si : Obj) : List Obj :=
  mergeEntityLoop (findDuplicateGeraetIdx sim) mergeGeraetEntities si current news

/-- Translation of `_merge_termine`. -/
def mergeTermine (sim : String → String → Q) (current news : List Obj) (si : Obj) : List Obj :=
  mergeEntityLoop (findDuplicateTerminIdx sim) mergeTerminEntities si current news

/-- Translation of `_merge_anforderungen` and `_merge_leistungen`: stamp
provenance and append, never deduplicate. -/
def appendLoop (si : Obj) (current news : List Obj) : List Obj :=
  current ++ news.map (stampQuelle si)

/-- Translation of `_merge_raw_tables`: every extracted raw table is
provenance-stamped and appended; nothing is removed or deduplicated. -/
def mergeRawTables (current : List Obj) (extracted : Option (List Obj)) (si : Obj) : List Obj :=
  match extracted with
  | none => current
  | some ts => current ++ ts.map (stampQuelle si)

/-- Translation of `_merge_metadata`: the extracted metadata dict is
provenance-stamped and stored under the (stringified) file id, replacing
any previous entry for that file. -/
def mergeMetadata (current : Obj) (extracted : Option Obj) (si : Obj) (file_id : Int) : Obj :=
  match extracted with
  | none => current
  | some md => setKey current (toString file_id) (.obj (stampQuelle si md))

/-- One iteration of the list case of `_merge_full_text`: a non-blank
string element becomes one `content`/`quelle` entry, a dict element is
provenance-stamped and appended, anything else is skipped. -/
def fullTextStep (si : Obj) (acc : List Obj) (x : Val) : List Obj :=
  match x with
  | .str s =>
      if !(pyStrip s == "") then acc ++ [[("content", .str s), ("quelle", .obj si)]]
      else acc
  | .obj o => acc ++ [stampQuelle si o]
  | _ => acc

/-- Translation of `_merge_full_text`: a non-blank string becomes one
`content`/`quelle` entry; a list contributes entries via
`fullTextStep`; other shapes contribute nothing. -/
def mergeFullText (current : List Obj) (extracted : Option Val) (si : Obj) : List Obj :=
  match extracted with
  | none => current
  | some (.str s) =>
      if !(pyStrip s == "") then current ++ [[("content", .str s), ("quelle", .obj si)]]
      else current
  | some (.list xs) => xs.foldl (fullTextStep si) current
  | some _ => current

/-- The file-registry entry appended to `projekt["dateien"]`. -/
def fileEntry (f : ProjectFile) : Obj :=
  [("name", .str f.original_filename),
   ("typ", .str f.file_type),
   ("upload_am", match f.upload_date with | some s => .str s | none => .null),
   ("revision", .str (match f.revision with
                      | some r => if r == "" then "-" else r
                      | none => "-"))]

/-- Translation of the `projekt` epilogue of `merge_extracted_data`:
when the snapshot has a `projekt` dict, ensure `dateien` exists and
append the file entry unless a registered file already bears the same
name (the source indexes `f["name"]` on each registered entry and would
raise on a non-dict entry, see `asObjD`). -/
def mergeProjekt (projekt : Option Obj) (f : ProjectFile) : Option Obj :=
  match projekt with
  | none => none
  | some p =>
    let p := if hasKey p "dateien" then p else setKey p "dateien" (.list [])
    let dateien := asListD (getV p "dateien")
    if dateien.any (fun d => Val.beq (getV (asObjD d) "name") (.str f.original_filename))
    then some p
    else some (setKey p "dateien" (.list (dateien ++ [.obj (fileEntry f)])))

/-- The JSON project model one snapshot holds, with one field per
top-level key touched by the pipeline (`merge_extracted_data` creates a
missing entity-collection key as `[]`, which the record represents
directly). -/
structure Snapshot where
  raeume : List Obj
  anlagen : List Obj
  geraete : List Obj
  anforderungen : List Obj
  termine : List Obj
  leistungen : List Obj
  images : List Obj
  raw_tables : List Obj
  metadata : Obj
  full_text : List Obj
  projekt : Option Obj

/-- One parser's output, with `none` for absent keys (the merge skips an
entity type the extraction result lacks). -/
structure ExtractionResult where
  raeume : Option (List Obj)
  anlagen : Option (List Obj)
  geraete : Option (List Obj)
  anforderungen : Option (List Obj)
  termine : Option (List Obj)
  leistungen : Option (List Obj)
  images : Option (List Obj)
  raw_tables : Option (List Obj)
  metadata : Option Obj
  full_text : Option Val

/-- Translation of `DataMergingService.merge_extracted_data`. -/
def mergeExtractedData (sim : String → String → Q) (current : Snapshot)
    (extracted : ExtractionResult) (f : ProjectFile) : Snapshot :=
  let si := sourceInfo f
  { raeume := match extracted.raeume with
      | none => current.raeume
      | some ns => mergeRaeume sim current.raeume ns si
    anlagen := match extracted.anlagen with
      | none => current.anlagen
      | some ns => mergeAnlagen sim current.anlagen ns si
    geraete := match extracted.geraete with
      | none => current.geraete
      | some ns => mergeGeraete sim current.geraete ns si
    anforderungen := match extracted.anforderungen with
      | none => current.anforderungen
      | some ns => appendLoop si current.anforderungen ns
    termine := match extracted.termine with
      | none => current.termine
      | some ns => mergeTermine sim current.termine ns si
    leistungen := match extracted.leistungen with
      | none => current.leistungen
      | some ns => appendLoop si current.leistungen ns
    images := match extracted.images with
      | none => current.images
      | some ns => current.images ++ ns.map (stampQuelle si)
    raw_tables := mergeRawTables current.raw_tables extracted.raw_tables si
    metadata := mergeMetadata current.metadata extracted.metadata si f.id
    full_text := mergeFullText current.full_text extracted.full_text si
    projekt := mergeProjekt current.projekt f }

/-! ## Validation service (`validation_service.py`)

The `beschreibung` and `empfehlung` fields of a `ValidationIssue` are
fixed German sentences interpolating the values shown; we model the pair
by one `Msg` constructor per issue site carrying exactly those
interpolated values, since no code branches on the rendered text. -/

/-- One constructor per issue-emitting site of the validation service,
carrying the values the source interpolates into the message. -/
inductive Msg where
  | raumFlaecheWiderspruch (raum_id : Val) (alt neu : Q)
  | raumNummerWiderspruch (nummer : String) (alt neu : Q)
  | volumenMismatch (raum_id : Val) (volumen expected : Q)
  | anlageLeistungWiderspruch (anlage_id : Val) (alt neu : Q)
  | geraetOhneZuordnung (geraet_id : Val)
  | geraetAnlageRef (geraet_id anlage : Val)
  | geraetRaumRef (geraet_id raum : Val)
  | anlageRaumRef (anlage_id raum_id : Val)
  | anlageGeraetRef (anlage_id geraet_id : Val)
  | raumAnlageRef (raum_id anlage_id : Val)
  | raumGeraetRef (raum_id geraet_id : Val)
  | terminLeistungRef (termin_id leistung : Val)
  | raumFlaecheUngueltig (raum_id : Val) (flaeche : Q)
  | raumFlaecheGross (raum_id : Val) (flaeche : Q)
  | raumVolumenUngueltig (raum_id : Val) (volumen : Q)
  | raumHoeheUngueltig (raum_id : Val) (hoehe : Q)
  | raumHoeheGross (raum_id : Val) (hoehe : Q)
  | anlageLeistungNegativ (anlage_id : Val) (kw : Q)
  | anlageLeistungGross (anlage_id : Val) (kw : Q)
  | anlageVolumenstromNegativ (anlage_id : Val) (m3h : Q)
  | geraetLeistungNegativ (geraet_id : Val) (kw : Q)
  | projektFeldFehlt (feld : String)
  | zuWenigRaeume (min_anzahl vorhanden : Nat)
  | raumFeldFehlt (raum_id : Val) (feld : String)
  | anlageFeldFehlt (anlage_id : Val) (feld : String)

/-- Translation of the `ValidationIssue` pydantic model.  `fundstellen`
holds the `datei` values collected by `_get_fundstellen` (strings on all
data the pipeline produces); `betroffene_entitaet` defaults to `None`,
i.e. `Val.null`. -/
structure ValidationIssue where
  kategorie : String
  beschreibung : Msg
  fundstellen : List Val
  schweregrad : String
  betroffene_entitaet : Val

/-- Translation of `_get_fundstellen`: collect each entity's `quelle`
file name(s), defaulting to `"unbekannt"`, without duplicates.  The
source would raise on a non-dict element of a `quelle` list, see
`asObjD`. -/
def fundstellenOf (entities : List Obj) : List Val :=
  entities.foldl (fun acc e =>
    match getKeyD e "quelle" (.obj []) with
    | .obj q => addUnique acc (getKeyD q "datei" (.str "unbekannt"))
    | .list qs =>
        qs.foldl (fun acc2 x => addUnique acc2 (getKeyD (asObjD x) "datei" (.str "unbekannt"))) acc
    | _ => acc) []

/-- Python `value` viewed as a truthy number, as demanded by guards such
as `if existing_flaeche and flaeche and abs(existing_flaeche - flaeche) > 0.1`
(a truthy non-number would raise there in the source). -/
def numTruthy : Val → Option Q
  | .num q => if q.truthy then some q else none
  | _ => none

/-- Lookup in a Python dict keyed by arbitrary values
(`raum_dict[raum_id]`). -/
def vdictFind (d : List (Val × Obj)) (k : Val) : Option Obj :=
  (d.find? (fun p => Val.beq p.1 k)).map (fun p => p.2)

/-- Assignment in a Python dict keyed by arbitrary values. -/
def vdictSet (d : List (Val × Obj)) (k : Val) (v : Obj) : List (Val × Obj) :=
  if d.any (fun p => Val.beq p.1 k) then
    d.map (fun p => if Val.beq p.1 k then (k, v) else p)
  else d ++ [(k, v)]

/-- Lookup in a Python dict keyed by strings (`raum_by_nummer`). -/
def sdictFind (d : List (String × Obj)) (k : String) : Option Obj :=
  (d.find? (fun p => p.1 == k)).map (fun p => p.2)

/-- Assignment in a Python dict keyed by strings. -/
def sdictSet (d : List (String × Obj)) (k : String) (v : Obj) : List (String × Obj) :=
  if d.any (fun p => p.1 == k) then
    d.map (fun p => if p.1 == k then (k, v) else p)
  else d ++ [(k, v)]

/-- Loop state of the room half of `_check_data_consistency`. -/
structure ConsState where
  issues : List ValidationIssue
  byId : List (Val × Obj)
  byNummer : List (String × Obj)

/-- One iteration of the room loop of `_check_data_consistency`:
id-duplicate area contradiction (tolerance `0.1`, error), number-duplicate
area contradiction (tolerance `0.1`, error), and the volume = area×height
plausibility check (tolerance `0.5`, warning). -/
def consRaumStep (st : ConsState) (raum : Obj) : ConsState :=
  let raum_id := getV raum "id"
  let raum_nummer := strFieldLower raum "nummer"
  let flaeche := getV raum "flaeche_m2"
  let volumen := getV raum "volumen_m3"
  let hoehe := getV raum "hoehe_m"
  let st1 :=
    match vdictFind st.byId raum_id with
    | some existing =>
        match numTruthy (getV existing "flaeche_m2"), numTruthy flaeche with
        | some a, some b =>
            if ((Q.sub a b).abs.gtb ⟨1, 10⟩) then
              { st with issues := st.issues ++
                  [⟨"Widerspruch", .raumFlaecheWiderspruch raum_id a b,
                    fundstellenOf [existing, raum], "kritisch", raum_id⟩] }
            else st
        | _, _ => st
    | none => { st with byId := vdictSet st.byId raum_id raum }
  let st2 :=
    if !(raum_nummer == "") && (st1.byNummer.any (fun p => p.1 == raum_nummer)) then
      match sdictFind st1.byNummer raum_nummer with
      | some existing =>
          match numTruthy (getV existing "flaeche_m2"), numTruthy flaeche with
          | some a, some b =>
              if ((Q.sub a b).abs.gtb ⟨1, 10⟩) then
                { st1 with issues := st1.issues ++
                    [⟨"Widerspruch", .raumNummerWiderspruch raum_nummer a b,
                      fundstellenOf [existing, raum], "kritisch", raum_id⟩] }
              else st1
          | _, _ => st1
      | none => st1
    else { st1 with byNummer := sdictSet st1.byNummer raum_nummer raum }
  match numTruthy flaeche, numTruthy hoehe, numTruthy volumen with
  | some f, some h, some v =>
      let expected : Q := ⟨f.n * h.n, f.d * h.d⟩
      if ((Q.sub v expected).abs.gtb ⟨5, 10⟩) then
        { st2 with issues := st2.issues ++
            [⟨"Plausibilitätsfehler", .volumenMismatch raum_id v expected,
              fundstellenOf [raum], "warnung", raum_id⟩] }
      else st2
  | _, _, _ => st2

/-- One iteration of the plant loop of `_check_data_consistency`:
id-duplicate power contradiction (tolerance `0.1`, error). -/
def consAnlageStep (st : List ValidationIssue × List (Val × Obj)) (anlage : Obj) :
    List ValidationIssue × List (Val × Obj) :=
  let anlage_id := getV anlage "id"
  let leistung := getV anlage "leistung_kw"
  match vdictFind st.2 anlage_id with
  | some existing =>
      match numTruthy (getV existing "leistung_kw"), numTruthy leistung with
      | some a, some b =>
          if ((Q.sub a b).abs.gtb ⟨1, 10⟩) then
            (st.1 ++ [⟨"Widerspruch", .anlageLeistungWiderspruch anlage_id a b,
                        fundstellenOf [existing, anlage], "kritisch", anlage_id⟩], st.2)
          else st
      | _, _ => st
  | none => (st.1, vdictSet st.2 anlage_id anlage)

/-- Translation of `_check_data_consistency`. -/
def checkDataConsistency (data : Snapshot) : List ValidationIssue :=
  let raumFinal := data.raeume.foldl consRaumStep ⟨[], [], []⟩
  (data.anlagen.foldl consAnlageStep (raumFinal.issues, [])).1

/-- Identifier collection (`{r.get("id") for r in ...}`); membership via
`valMem` is all the source does with these sets. -/
def idsOf (es : List Obj) : List Val := es.map (fun e => getV e "id")

/-- The issues `_check_reference_integrity` emits for one device: a
missing-assignment warning when neither reference is set (truthy),
otherwise at most one dangling-reference error, the plant reference
taking priority over the room reference (`if`/`elif`/`elif`). -/
def geraetRefIssues (anlagenIds raeumeIds : List Val) (geraet : Obj) :
    List ValidationIssue :=
  let geraet_id := getV geraet "id"
  let za := getV geraet "zugehoerige_anlage"
  let zr := getV geraet "zugehoeriger_raum"
  if !za.truthy && !zr.truthy then
    [⟨"Fehlende Angabe", .geraetOhneZuordnung geraet_id,
      fundstellenOf [geraet], "warnung", geraet_id⟩]
  else if za.truthy && !(valMem za anlagenIds) then
    [⟨"Referenzfehler", .geraetAnlageRef geraet_id za,
      fundstellenOf [geraet], "kritisch", geraet_id⟩]
  else if zr.truthy && !(valMem zr raeumeIds) then
    [⟨"Referenzfehler", .geraetRaumRef geraet_id zr,
      fundstellenOf [geraet], "kritisch", geraet_id⟩]
  else []

/-- The issues `_check_reference_integrity` emits for one plant: one
error per dangling room link and per dangling device link (the source
iterates `anlage.get("zugehoerige_raeume", [])`, raising on a non-list,
see `asListD`). -/
def anlageRefIssues (raeumeIds geraeteIds : List Val) (anlage : Obj) :
    List ValidationIssue :=
  let anlage_id := getV anlage "id"
  ((asListD (getKeyD anlage "zugehoerige_raeume" (.list []))).filter
      (fun r => !(valMem r raeumeIds))).map
    (fun r => ⟨"Referenzfehler", .anlageRaumRef anlage_id r,
               fundstellenOf [anlage], "kritisch", anlage_id⟩)
  ++ ((asListD (getKeyD anlage "zugehoerige_geraete" (.list []))).filter
      (fun g => !(valMem g geraeteIds))).map
    (fun g => ⟨"Referenzfehler", .anlageGeraetRef anlage_id g,
               fundstellenOf [anlage], "kritisch", anlage_id⟩)

/-- The issues `_check_reference_integrity` emits for one room: one
error per dangling plant link and per dangling device link. -/
def raumRefIssues (anlagenIds geraeteIds : List Val) (raum : Obj) :
    List ValidationIssue :=
  let raum_id := getV raum "id"
  ((asListD (getKeyD raum "zugehoerige_anlagen" (.list []))).filter
      (fun a => !(valMem a anlagenIds))).map
    (fun a => ⟨"Referenzfehler", .raumAnlageRef raum_id a,
               fundstellenOf [raum], "kritisch", raum_id⟩)
  ++ ((asListD (getKeyD raum "zugehoerige_geraete" (.list []))).filter
      (fun g => !(valMem g geraeteIds))).map
    (fun g => ⟨"Referenzfehler", .raumGeraetRef raum_id g,
               fundstellenOf [raum], "kritisch", raum_id⟩)

/-- The issue `_check_reference_integrity` emits for one deadline with a
dangling service-item link (a warning, unlike the errors above). -/
def terminRefIssues (leistungenIds : List Val) (termin : Obj) :
    List ValidationIssue :=
  let termin_id := getV termin "id"
  let zl := getV termin "zugehoerige_leistung"
  if zl.truthy && !(valMem zl leistungenIds) then
    [⟨"Referenzfehler", .terminLeistungRef termin_id zl,
      fundstellenOf [termin], "warnung", termin_id⟩]
  else []

/-- Translation of `_check_reference_integrity`. -/
def checkReferenceIntegrity (data : Snapshot) : List ValidationIssue :=
  let raeumeIds := idsOf data.raeume
  let anlagenIds := idsOf data.anlagen
  let geraeteIds := idsOf data.geraete
  let leistungenIds := idsOf data.leistungen
  data.geraete.flatMap (geraetRefIssues anlagenIds raeumeIds)
  ++ data.anlagen.flatMap (anlageRefIssues raeumeIds geraeteIds)
  ++ data.raeume.flatMap (raumRefIssues anlagenIds geraeteIds)
  ++ data.termine.flatMap (terminRefIssues leistungenIds)

/-- The issues `_check_numerical_plausibility` emits for one room:
non-positive area, volume or height are `kritisch`; an area above 10000
or a height above 10 is a `hinweis` (the source compares
`flaeche <= 0` etc. and would raise on a non-numeric non-`None`
value). -/
def raumPlausIssues (raum : Obj) : List ValidationIssue :=
  let raum_id := getV raum "id"
  (match getV raum "flaeche_m2" with
   | .num q =>
       if q.leb (Q.ofInt 0) then
         [⟨"Plausibilitätsfehler", .raumFlaecheUngueltig raum_id q,
           fundstellenOf [raum], "kritisch", raum_id⟩]
       else if q.gtb (Q.ofInt 10000) then
         [⟨"Plausibilitätsfehler", .raumFlaecheGross raum_id q,
           fundstellenOf [raum], "hinweis", raum_id⟩]
       else []
   | _ => [])
  ++ (match getV raum "volumen_m3" with
      | .num q =>
          if q.leb (Q.ofInt 0) then
            [⟨"Plausibilitätsfehler", .raumVolumenUngueltig raum_id q,
              fundstellenOf [raum], "kritisch", raum_id⟩]
          else []
      | _ => [])
  ++ (match getV raum "hoehe_m" with
      | .num q =>
          if q.leb (Q.ofInt 0) then
            [⟨"Plausibilitätsfehler", .raumHoeheUngueltig raum_id q,
              fundstellenOf [raum], "kritisch", raum_id⟩]
          else if q.gtb (Q.ofInt 10) then
            [⟨"Plausibilitätsfehler", .raumHoeheGross raum_id q,
              fundstellenOf [raum], "hinweis", raum_id⟩]
          else []
      | _ => [])

/-- The issues `_check_numerical_plausibility` emits for one plant:
negative power or flow rate is `kritisch`, power above 10000 a
`hinweis` (note the strict `< 0` here, unlike the rooms' `<= 0`). -/
def anlagePlausIssues (anlage : Obj) : List ValidationIssue :=
  let anlage_id := getV anlage "id"
  (match getV anlage "leistung_kw" with
   | .num q =>
       if q.ltb (Q.ofInt 0) then
         [⟨"Plausibilitätsfehler", .anlageLeistungNegativ anlage_id q,
           fundstellenOf [anlage], "kritisch", anlage_id⟩]
       else if q.gtb (Q.ofInt 10000) then
         [⟨"Plausibilitätsfehler", .anlageLeistungGross anlage_id q,
           fundstellenOf [anlage], "hinweis", anlage_id⟩]
       else []
   | _ => [])
  ++ (match getV anlage "leistung_m3_h" with
      | .num q =>
          if q.ltb (Q.ofInt 0) then
            [⟨"Plausibilitätsfehler", .anlageVolumenstromNegativ anlage_id q,
              fundstellenOf [anlage], "kritisch", anlage_id⟩]
          else []
      | _ => [])

/-- The issue `_check_numerical_plausibility` emits for one device with
negative power. -/
def geraetPlausIssues (geraet : Obj) : List ValidationIssue :=
  let geraet_id := getV geraet "id"
  match getV geraet "leistung_kw" with
  | .num q =>
      if q.ltb (Q.ofInt 0) then
        [⟨"Plausibilitätsfehler", .geraetLeistungNegativ geraet_id q,
          fundstellenOf [geraet], "kritisch", geraet_id⟩]
      else []
  | _ => []

/-- Translation of `_check_numerical_plausibility`. -/
def checkNumericalPlausibility (data : Snapshot) : List ValidationIssue :=
  data.raeume.flatMap raumPlausIssues
  ++ data.anlagen.flatMap anlagePlausIssues
  ++ data.geraete.flatMap geraetPlausIssues

/-- The declarative minimum-requirements document
(`config/offerte_spec.yaml`, read at service construction), reduced to
the four values `_check_offerte_spec` reads from it (each already
carrying the source's `.get(..., default)`). -/
structure OfferteSpec where
  projekt_erforderliche_felder : List String
  raeume_min_anzahl : Nat
  raeume_erforderliche_felder : List String
  anlagen_erforderliche_felder : List String

/-- Translation of `_check_offerte_spec`: missing/falsy required project
fields and a below-minimum room count are errors; a missing or `None`
required room field is an error, a missing or `None` required plant
field only a warning. -/
def checkOfferteSpec (spec : OfferteSpec) (data : Snapshot) : List ValidationIssue :=
  let projekt := data.projekt.getD []
  (spec.projekt_erforderliche_felder.filter
      (fun feld => !hasKey projekt feld || !(getV projekt feld).truthy)).map
    (fun feld => ⟨"Fehlende Angabe", .projektFeldFehlt feld, [], "kritisch", .null⟩)
  ++ (if data.raeume.length < spec.raeume_min_anzahl then
        [⟨"Fehlende Angabe", .zuWenigRaeume spec.raeume_min_anzahl data.raeume.length,
          [], "kritisch", .null⟩]
      else [])
  ++ data.raeume.flatMap (fun raum =>
       (spec.raeume_erforderliche_felder.filter
           (fun feld => match getKey raum feld with
                        | none => true
                        | some .null => true
                        | some _ => false)).map
         (fun feld => ⟨"Fehlende Angabe", .raumFeldFehlt (getV raum "id") feld,
                       fundstellenOf [raum], "kritisch", getV raum "id"⟩))
  ++ data.anlagen.flatMap (fun anlage =>
       (spec.anlagen_erforderliche_felder.filter
           (fun feld => match getKey anlage feld with
                        | none => true
                        | some .null => true
                        | some _ => false)).map
         (fun feld => ⟨"Fehlende Angabe", .anlageFeldFehlt (getV anlage "id") feld,
                       fundstellenOf [anlage], "warnung", getV anlage "id"⟩))

/-- The dict `validate_project_data` returns. -/
structure ValidationReport where
  konsistenz_ok : Bool
  fehler : List ValidationIssue
  warnungen : List ValidationIssue
  hinweise : List ValidationIssue

/-- Translation of `ValidationService.validate_project_data`.  The
`spec` argument is the YAML rule document loaded at service
construction (`none` when the config file does not exist).  Note that
the source files plausibility issues only into `warnungen`/`hinweise`:
`kritisch` plausibility issues reach neither list nor `fehler`. -/
def validateProjectData (spec : Option OfferteSpec) (data : Snapshot) : ValidationReport :=
  let consistency := checkDataConsistency data
  let references := checkReferenceIntegrity data
  let plausibility := checkNumericalPlausibility data
  let yaml := match spec with
              | some s => checkOfferteSpec s data
              | none => []
  let kritisch := fun (i : ValidationIssue) => i.schweregrad == "kritisch"
  let warnung := fun (i : ValidationIssue) => i.schweregrad == "warnung"
  let hinweis := fun (i : ValidationIssue) => i.schweregrad == "hinweis"
  let fehler := consistency.filter kritisch ++ references.filter kritisch
                ++ yaml.filter kritisch
  let warnungen := consistency.filter warnung ++ references.filter warnung
                   ++ plausibility.filter warnung ++ yaml.filter warnung
  let hinweise := plausibility.filter hinweis
  { konsistenz_ok := fehler.isEmpty
    fehler := fehler
    warnungen := warnungen
    hinweise := hinweise }

/-! ## Spreadsheet parser (`excel_parser.py`)

A worksheet is modelled as its `values_only` view: the list of rows,
each a list of cell values, 1-based in the source's indexing.
`iter_rows` with an explicit `max_row` beyond the sheet's extent yields
padded all-`None` rows, which no predicate below accepts, so clipping at
the sheet length is equivalent. -/

/-- Worksheet as rows of cell values. -/
abbrev Sheet := List (List Val)

/-- Python `cell and str(cell).strip()`: the cell is truthy and its
rendering has non-blank content (true for non-blank text, non-zero
numbers and dates). -/
def cellHasContent (v : Val) : Bool := v.truthy && !(pyStrip (pyStr v) == "")

/-- The `max_search_rows` parameter of `_find_header_row`, always
called at its default of 20. -/
def MAX_HEADER_SEARCH_ROWS : Nat := 20

/-- Translation of `_find_header_row` (default `max_search_rows = 20`):
the 1-based index of the first row among the first 20 that is non-empty
and has at least one cell with content (the source's `text_cells`
recheck repeats the same condition), falling back to row 1 whenever the
sheet has at least one row. -/
def findHeaderRow (sheet : Sheet) : Option Nat :=
  match (sheet.take MAX_HEADER_SEARCH_ROWS).findIdx?
      (fun row => !row.isEmpty && row.any cellHasContent) with
  | some idx => some (idx + 1)
  | none => if 1 ≤ sheet.length then some 1 else none

/-- The row-extraction bound of `_extract_raw_table` / `_extract_raeume`. -/
def MAX_ROWS_TO_EXTRACT : Nat := 10000

/-- The consecutive-empty-row early-stop bound of `_extract_raw_table`. -/
def MAX_CONSECUTIVE_EMPTY_ROWS : Nat := 100

/-- Cell rendering inside `_extract_raw_table`'s row dicts: `None`
becomes `""`, dates their ISO form (already a string here), everything
else its `str`. -/
def renderCell : Val → String
  | .null => ""
  | v => pyStr v

/-- One `row_dict` of `_extract_raw_table`: header-named values for the
columns that have a header (duplicate header names overwrite, as for a
Python dict). -/
def rowDict (headers : List String) (row : List Val) : Obj :=
  (row.zip headers).foldl (fun acc p => setKey acc p.2 (.str (renderCell p.1))) []

/-- Python `any(value for value in row_dict.values())`. -/
def rowDictTruthy (rd : Obj) : Bool := rd.any (fun p => p.2.truthy)

/-- The data-row loop of `_extract_raw_table` over the sliced row range:
a fully empty row bumps the consecutive-empty counter and stops the
whole scan at 100; a row with content resets the counter and is kept
when its header-mapped dict has any non-blank value. -/
def rawRowsLoop (headers : List String) : List (List Val) → Nat → List Obj
  | [], _ => []
  | row :: rest, emptyCount =>
    if !(row.any Val.truthy) then
      if MAX_CONSECUTIVE_EMPTY_ROWS ≤ emptyCount + 1 then []
      else rawRowsLoop headers rest (emptyCount + 1)
    else
      let rd := rowDict headers row
      if rowDictTruthy rd then rd :: rawRowsLoop headers rest 0
      else rawRowsLoop headers rest 0

/-- openpyxl's `sheet.max_column` over the modelled rows. -/
def sheetMaxCol (sheet : Sheet) : Nat := sheet.foldl (fun m r => max m r.length) 0

/-- The padded header list of `_extract_raw_table`: the header cell's
stripped rendering when it has content, else `Spalte_{i+1}`. -/
def rawHeaders (headerCells : List Val) (maxCol : Nat) : List String :=
  (List.range maxCol).map (fun i =>
    match headerCells.get? i with
    | some v => if cellHasContent v then pyStrip (pyStr v) else "Spalte_" ++ toString (i + 1)
    | none => "Spalte_" ++ toString (i + 1))

/-- The header row `_extract_raw_table` works from: `_find_header_row`'s
answer, with the source's extra `if not header_row: header_row = 1`
fallback. -/
def rawHeaderRow (sheet : Sheet) : Nat :=
  match findHeaderRow sheet with
  | some h => h
  | none => 1

/-- The first data row of `_extract_raw_table`
(`header_row + 1 if header_row < sheet.max_row else header_row`). -/
def rawStartDataRow (sheet : Sheet) : Nat :=
  if rawHeaderRow sheet < sheet.length then rawHeaderRow sheet + 1 else rawHeaderRow sheet

/-- The last row `_extract_raw_table` may visit
(`min(sheet.max_row, start_data_row + MAX_ROWS_TO_EXTRACT)`). -/
def rawMaxRowToProcess (sheet : Sheet) : Nat :=
  min sheet.length (rawStartDataRow sheet + MAX_ROWS_TO_EXTRACT)

/-- The inclusive 1-based row range `start_data_row ..
max_row_to_process` that `_extract_raw_table`'s loop iterates, as the
corresponding slice of the sheet. -/
def rawTableSlice (sheet : Sheet) : List (List Val) :=
  (sheet.drop (rawStartDataRow sheet - 1)).take
    (rawMaxRowToProcess sheet + 1 - rawStartDataRow sheet)

/-- The headers `_extract_raw_table` computes for a sheet. -/
def rawTableHeaders (sheet : Sheet) : List String :=
  rawHeaders ((sheet.get? (rawHeaderRow sheet - 1)).getD []) (sheetMaxCol sheet)

/-- The `rows_data` list of `_extract_raw_table` before the
header-as-data fallback. -/
def rawTableDataRows (sheet : Sheet) : List Obj :=
  rawRowsLoop (rawTableHeaders sheet) (rawTableSlice sheet) 0

/-- Translation of `_extract_raw_table`: `None` for a rowless sheet or
when no (fallback) data row was found, else the raw-table dict. -/
def extractRawTable (sheet : Sheet) (sheet_name : String) (si : Obj) : Option Obj :=
  if sheet.length < 1 then none
  else
    let header_row := rawHeaderRow sheet
    let header_cells := (sheet.get? (header_row - 1)).getD []
    let headers := rawTableHeaders sheet
    let rows0 := rawTableDataRows sheet
    let rows_data :=
      if rows0.isEmpty && !headers.isEmpty then
        let header_row_data := rowDict headers header_cells
        if rowDictTruthy header_row_data then [header_row_data] else []
      else rows0
    if rows_data.isEmpty then none
    else some
      [("sheet_name", .str sheet_name),
       ("header_row", .num (Q.ofInt (header_row : Int))),
       ("headers", .list (headers.map Val.str)),
       ("rows", .list (rows_data.map Val.obj)),
       ("row_count", .num (Q.ofInt (rows_data.length : Int))),
       ("column_count", .num (Q.ofInt (headers.length : Int))),
       ("quelle", .obj (objUnion si [("blatt", .str sheet_name)]))]

/-- Python `needle in haystack` on strings (character lists). -/
def hasSubChars (needle : List Char) : List Char → Bool
  | [] => needle.isEmpty
  | c :: rest => needle.isPrefixOf (c :: rest) || hasSubChars needle rest

/-- Python `needle in haystack` on strings. -/
def hasSubstr (haystack needle : String) : Bool :=
  hasSubChars needle.toList haystack.toList

/-- Python `any(kw in header_lower for kw in kws)`. -/
def anyKw (headerLower : String) (kws : List String) : Bool :=
  kws.any (fun kw => hasSubstr headerLower kw)

/-- Ordered-role dict assignment for `_extract_raeume`'s `column_map`. -/
def cmSet (m : List (String × Nat)) (k : String) (v : Nat) : List (String × Nat) :=
  if m.any (fun p => p.1 == k) then m.map (fun p => if p.1 == k then (k, v) else p)
  else m ++ [(k, v)]

/-- Lookup in `_extract_raeume`'s `column_map`. -/
def cmGet (m : List (String × Nat)) (k : String) : Option Nat :=
  (m.find? (fun p => p.1 == k)).map (fun p => p.2)

/-- The column-role mapping of `_extract_raeume`: per truthy string
header, the first matching keyword family claims the column (later
columns overwrite an earlier claim of the same role). -/
def raumColumnMap (headers : List Val) : List (String × Nat) :=
  headers.enum.foldl (fun cm p =>
    match p.2 with
    | .str s =>
        if s == "" then cm
        else
          let hl := pyLower s
          if anyKw hl ["raum", "room", "nummer", "nr", "bezeichnung"] then cmSet cm "raum" p.1
          else if anyKw hl ["flaeche", "fläche", "m²", "m2", "area"] then cmSet cm "flaeche" p.1
          else if anyKw hl ["volumen", "volume", "m³", "m3"] then cmSet cm "volumen" p.1
          else if anyKw hl ["hoehe", "höhe", "höhe m", "height"] then cmSet cm "hoehe" p.1
          else if anyKw hl ["nutzung", "nutzungsart", "art", "typ", "usage"] then cmSet cm "nutzung" p.1
          else if anyKw hl ["geschoss", "etage", "floor", "level"] then cmSet cm "geschoss" p.1
          else if anyKw hl ["zone", "bereich", "area"] then cmSet cm "zone" p.1
          else cm
    | _ => cm) []

/-- Digit run to a natural number. -/
def parseDigits (cs : List Char) : Nat :=
  cs.foldl (fun a c => a * 10 + (c.toNat - 48)) 0

/-- Python `float(text)` for the digits-and-dots runs `_extract_number`
feeds it: plain digits, `a.b`, `a.` and `.b` parse, anything with two
dots (or a lone dot) raises and yields `None` upstream. -/
def pyFloat (cs : List Char) : Option Q :=
  match cs.splitOn '.' with
  | [a] => if a.isEmpty then none else some ⟨(parseDigits a : Int), 1⟩
  | [a, b] =>
      if a.isEmpty && b.isEmpty then none
      else some ⟨(parseDigits a * 10 ^ b.length + parseDigits b : Int), 10 ^ b.length⟩
  | _ => none

/-- Membership of a character in the `[\d,\.]+` class after the
source's `value.replace(',', '.')` (no commas remain). -/
def isNumChar (c : Char) : Bool := c.isDigit || c == '.'

/-- First maximal run matched by `re.search(r'[\d,\.]+', ...)`. -/
def firstNumRun : List Char → Option (List Char)
  | [] => none
  | c :: rest =>
      if isNumChar c then some (c :: rest.takeWhile isNumChar)
      else firstNumRun rest

/-- Translation of `_extract_number`: out-of-range or `None` cells give
`None`, numeric cells their float value, string cells the parsed first
numeric run (else `None`); other cell types give `None`. -/
def extractNumber (row : List Val) (col : Option Nat) : Val :=
  match col with
  | none => .null
  | some i =>
      match row.get? i with
      | none => .null
      | some .null => .null
      | some (.num q) => .num q
      | some (.str s) =>
          match firstNumRun (pyReplaceChar s ',' '.').data with
          | some run => match pyFloat run with
                        | some q => .num q
                        | none => .null
          | none => .null
      | some _ => .null

/-- Translation of `_extract_text`: the stripped rendering of a truthy
cell, else `None`. -/
def extractText (row : List Val) (col : Option Nat) : Val :=
  match col with
  | none => .null
  | some i =>
      match row.get? i with
      | none => .null
      | some v => if v.truthy then .str (pyStrip (pyStr v)) else .null

/-- Words that disqualify a room name (`["", "gesamt", "summe", "total"]`). -/
def raumNameSkipped (raum_name : String) : Bool :=
  raum_name == "" || pyLower raum_name == "" || pyLower raum_name == "gesamt"
    || pyLower raum_name == "summe" || pyLower raum_name == "total"

/-- Translation of `_extract_raeume`: header detection, column-role
mapping, then the bounded data-row loop
(`range(header_row + 1, min(sheet.max_row, header_row + 10000) + 1)`),
skipping rows with a falsy or summary-word room cell — with no
consecutive-empty early stop. -/
def raumRowStep (sheet : Sheet) (si : Obj) (sheet_title : String)
    (cm : List (String × Nat)) (raumCol : Nat) (acc : List Obj) (row_idx : Nat) :
    List Obj :=
  let row := (sheet.get? (row_idx - 1)).getD []
  let raum_value := if raumCol < row.length then row.getD raumCol .null else .null
  if !raum_value.truthy then acc
  else
    let raum_name := pyStrip (pyStr raum_value)
    if raumNameSkipped raum_name then acc
    else
      acc ++ [[("id", .str ("Raum_" ++ pyReplaceChar raum_name ' ' '_')),
               ("name", .str raum_name),
               ("nummer", .str raum_name),
               ("flaeche_m2", extractNumber row (cmGet cm "flaeche")),
               ("volumen_m3", extractNumber row (cmGet cm "volumen")),
               ("hoehe_m", extractNumber row (cmGet cm "hoehe")),
               ("nutzungsart", extractText row (cmGet cm "nutzung")),
               ("geschoss", extractText row (cmGet cm "geschoss")),
               ("zone", extractText row (cmGet cm "zone")),
               ("quelle", .obj (objUnion si
                  [("blatt", .str sheet_title),
                   ("zeile", .num (Q.ofInt (row_idx : Int)))]))]]

/-- Translation of the data-row loop body and loop of `_extract_raeume`
(see `raumRowStep` for one row). -/
def extractRaeume (sheet : Sheet) (si : Obj) (sheet_title : String) : List Obj :=
  match findHeaderRow sheet with
  | none => []
  | some header_row =>
    let headers := (sheet.get? (header_row - 1)).getD []
    let cm := raumColumnMap headers
    match cmGet cm "raum" with
    | none => []
    | some raumCol =>
      let max_row := min sheet.length (header_row + MAX_ROWS_TO_EXTRACT)
      (List.range' (header_row + 1) (max_row - header_row)).foldl
        (raumRowStep sheet si sheet_title cm raumCol) []

/-! ## Specification-side definitions

These two definitions follow the wording of the specification (not the
source) and exist only to be compared with `findHeaderRow`. -/

/-- The header-row rule as the specification words it: the first row
among the first 20 rows containing at least one non-empty TEXT cell
(a string with non-blank content), falling back to row 1 when no such
row exists and the sheet has at least one row. -/
def specHeaderRow (sheet : Sheet) : Option Nat :=
  match (sheet.take 20).findIdx?
      (fun row => row.any (fun v => match v with
                                    | .str s => !(pyStrip s == "")
                                    | _ => false)) with
  | some idx => some (idx + 1)
  | none => if 1 ≤ sheet.length then some 1 else none

/-- The amended header-row rule: the first (1-based) row index `i` among
the first 20 rows whose row holds at least one truthy cell with
non-blank rendering — non-blank text or a non-zero number/date — with
the same fallback to row 1. -/
def amendedHeaderRow (sheet : Sheet) : Option Nat :=
  match (List.range' 1 (min 20 sheet.length)).find?
      (fun i => ((sheet.get? (i - 1)).getD []).any cellHasContent) with
  | some i => some i
  | none => if 1 ≤ sheet.length then some 1 else none

/-! ## Dictionary lemmas -/

theorem getKey_nil (k : String) : getKey [] k = none := rfl

theorem getKey_cons (p : String × Val) (o : Obj) (k : String) :
    getKey (p :: o) k = if p.1 == k then some p.2 else getKey o k := by
  simp only [getKey, List.find?_cons]
  cases p.1 == k <;> simp

theorem hasKey_cons (p : String × Val) (o : Obj) (k : String) :
    hasKey (p :: o) k = (p.1 == k || hasKey o k) := by
  simp [hasKey]

theorem getKey_none_of_hasKey_false {o : Obj} {k : String} (h : hasKey o k = false) :
    getKey o k = none := by
  simp only [hasKey, List.any_eq_false] at h
  simp only [getKey, Option.map_eq_none']
  exact List.find?_eq_none.mpr h

theorem getKey_append (o₁ o₂ : Obj) (k : String) :
    getKey (o₁ ++ o₂) k = (getKey o₁ k).or (getKey o₂ k) := by
  simp only [getKey, List.find?_append]
  cases o₁.find? (fun p => p.1 == k) <;> simp

theorem setfun_comp (k k' : String) (v : Val) :
    ((fun p : String × Val => p.1 == k) ∘ (fun p => if p.1 == k' then (k', v) else p))
      = (fun p : String × Val => p.1 == k) := by
  funext p
  by_cases hp : p.1 = k'
  · subst hp
    by_cases hk : p.1 = k <;> simp [Function.comp, hk]
  · simp [Function.comp, hp]

theorem getKey_map_set_self (o : Obj) (k : String) (v : Val) (hk : hasKey o k = true) :
    getKey (o.map (fun p => if p.1 == k then (k, v) else p)) k = some v := by
  unfold getKey
  rw [List.find?_map, setfun_comp]
  have hsome : (o.find? (fun p => p.1 == k)).isSome := by
    rw [List.find?_isSome]
    simpa [hasKey, List.any_eq_true] using hk
  cases hfind : o.find? (fun p => p.1 == k) with
  | none => rw [hfind] at hsome; simp at hsome
  | some e =>
      have he := List.find?_some hfind
      have hee : e.1 = k := by simpa using he
      simp [hfind, hee]

theorem getKey_map_set_other (o : Obj) {k k' : String} (v : Val) (h : k' ≠ k) :
    getKey (o.map (fun p => if p.1 == k' then (k', v) else p)) k = getKey o k := by
  unfold getKey
  rw [List.find?_map, setfun_comp]
  cases hfind : o.find? (fun p => p.1 == k) with
  | none => simp
  | some e =>
      have he := List.find?_some hfind
      have hne : ¬(e.1 = k') := by
        have hee : e.1 = k := by simpa using he
        simpa [hee] using Ne.symm h
      simp [hne]

theorem getKey_setKey_self (o : Obj) (k : String) (v : Val) :
    getKey (setKey o k v) k = some v := by
  unfold setKey
  by_cases h : hasKey o k = true
  · rw [if_pos h]
    exact getKey_map_set_self o k v h
  · have hf : hasKey o k = false := by simpa using h
    rw [if_neg (by simp [hf]), getKey_append, getKey_none_of_hasKey_false hf]
    simp [getKey_cons, getKey_nil]

theorem getKey_setKey_ne (o : Obj) {k k' : String} (v : Val) (h : k' ≠ k) :
    getKey (setKey o k' v) k = getKey o k := by
  unfold setKey
  by_cases hk : hasKey o k' = true
  · rw [if_pos hk]
    exact getKey_map_set_other o v h
  · rw [if_neg hk, getKey_append]
    have h2 : getKey [(k', v)] k = none := by
      simp [getKey_cons, getKey_nil, h]
    rw [h2]
    cases hg : getKey o k <;> rfl

theorem getV_setKey_ne (o : Obj) {k k' : String} (v : Val) (h : k' ≠ k) :
    getV (setKey o k' v) k = getV o k := by
  simp [getV, getKeyD, getKey_setKey_ne o v h]

theorem getV_setKey_self (o : Obj) (k : String) (v : Val) :
    getV (setKey o k v) k = v := by
  simp [getV, getKeyD, getKey_setKey_self]

/-! ## Provenance-preservation machinery -/

/-- The relation the provenance-monotonicity claim asserts between one
entity collection before and after a merge: every pre-existing position
survives and its provenance entries (the entity's `quelle`, viewed as a
list) are all still present. -/
def PreservesProv (before after : List Obj) : Prop :=
  before.length ≤ after.length ∧
  ∀ i, i < before.length →
    ∀ v, v ∈ quelleBase (before.getD i []) → v ∈ quelleBase (after.getD i [])

theorem preservesProv_refl (l : List Obj) : PreservesProv l l :=
  ⟨le_refl _, fun _ _ _ h => h⟩

theorem preservesProv_trans {a b c : List Obj}
    (h₁ : PreservesProv a b) (h₂ : PreservesProv b c) : PreservesProv a c :=
  ⟨le_trans h₁.1 h₂.1,
   fun i hi v hv => h₂.2 i (lt_of_lt_of_le hi h₁.1) v (h₁.2 i hi v hv)⟩

theorem preservesProv_append (l m : List Obj) : PreservesProv l (l ++ m) := by
  refine ⟨by simp, fun i hi v hv => ?_⟩
  rwa [List.getD_eq_getElem?_getD, List.getElem?_append_left hi,
    ← List.getD_eq_getElem?_getD]

theorem preservesProv_set (l : List Obj) (idx : Nat) (e : Obj)
    (h : ∀ v, v ∈ quelleBase (l.getD idx []) → v ∈ quelleBase e) :
    PreservesProv l (l.set idx e) := by
  refine ⟨by simp, fun i hi v hv => ?_⟩
  by_cases hij : i = idx
  · subst hij
    rw [List.getD_eq_getElem?_getD, List.getElem?_set_self hi]
    exact h v hv
  · rwa [List.getD_eq_getElem?_getD, List.getElem?_set_ne (fun hh => hij hh.symm),
      ← List.getD_eq_getElem?_getD]

theorem foldl_preserve_getKey {β : Type} (step : Obj → β → Obj) (k : String)
    (h : ∀ m x, getKey (step m x) k = getKey m k) :
    ∀ (l : List β) (m : Obj), getKey (l.foldl step m) k = getKey m k := by
  intro l
  induction l with
  | nil => intro m; rfl
  | cons x xs ih => intro m; rw [List.foldl_cons, ih, h]

theorem mergeEntityLoop_preserves (findDup : Obj → List Obj → Option Nat)
    (mergeEnt : Obj → Obj → Obj) (si : Obj)
    (hme : ∀ e n v, v ∈ quelleBase e → v ∈ quelleBase (mergeEnt e n)) :
    ∀ (news current : List Obj),
      PreservesProv current (mergeEntityLoop findDup mergeEnt si current news) := by
  intro news
  induction news with
  | nil => intro current; exact preservesProv_refl current
  | cons n ns ih =>
      intro current
      have hrw : mergeEntityLoop findDup mergeEnt si current (n :: ns)
          = mergeEntityLoop findDup mergeEnt si
              (mergeEntityStep findDup mergeEnt si current n) ns := rfl
      rw [hrw]
      refine preservesProv_trans ?_ (ih _)
      show PreservesProv current
        (match findDup (stampQuelle si n) current with
         | some idx => current.set idx (mergeEnt (current.getD idx []) (stampQuelle si n))
         | none => current ++ [stampQuelle si n])
      cases findDup (stampQuelle si n) current with
      | some idx => exact preservesProv_set _ idx _ (fun v hv => hme _ _ v hv)
      | none => exact preservesProv_append _ _

theorem raumFieldStep_getKey (qa qn : Val) (m : Obj) (kv : String × Val) (k : String)
    (hkon : "konflikte" ≠ k)
    (hcase : kv.1 ≠ k ∨ kv.2 = Val.null ∨ kv.1 = "quelle" ∨ kv.1 = "id") :
    getKey (raumFieldStep qa qn m kv) k = getKey m k := by
  unfold raumFieldStep
  split
  · rfl
  next hskip =>
    split
    · rfl
    next v hvnull =>
      have hne : kv.1 ≠ k := by
        rcases hcase with h1 | h2 | h3 | h4
        · exact h1
        · exact absurd h2 hvnull
        · exact absurd (by simp [h3]) hskip
        · exact absurd (by simp [h4]) hskip
      split
      case h_1 => exact getKey_setKey_ne m kv.2 hne
      case h_2 => exact getKey_setKey_ne m kv.2 hne
      case h_3 =>
        split
        case h_1 =>
          split
          · exact getKey_setKey_ne m _ hkon
          · rfl
        case h_2 => rfl

theorem anlageFieldStep_getKey (m : Obj) (kv : String × Val) (k : String)
    (hcase : kv.1 ≠ k ∨ kv.2 = Val.null ∨ kv.1 = "quelle" ∨ kv.1 = "id") :
    getKey (anlageFieldStep m kv) k = getKey m k := by
  unfold anlageFieldStep
  split
  · rfl
  next hskip =>
    split
    · rfl
    next v hvnull =>
      have hne : kv.1 ≠ k := by
        rcases hcase with h1 | h2 | h3 | h4
        · exact h1
        · exact absurd h2 hvnull
        · exact absurd (by simp [h3]) hskip
        · exact absurd (by simp [h4]) hskip
      split
      case h_1 => exact getKey_setKey_ne m kv.2 hne
      case h_2 => exact getKey_setKey_ne m kv.2 hne
      case h_3 =>
        split
        · exact getKey_setKey_ne m _ hne
        · rfl

theorem geraetFieldStep_getKey (m : Obj) (kv : String × Val) (k : String)
    (hcase : kv.1 ≠ k ∨ kv.2 = Val.null ∨ kv.1 = "quelle" ∨ kv.1 = "id") :
    getKey (geraetFieldStep m kv) k = getKey m k := by
  unfold geraetFieldStep
  split
  · rfl
  next hskip =>
    split
    · rfl
    next v hvnull =>
      have hne : kv.1 ≠ k := by
        rcases hcase with h1 | h2 | h3 | h4
        · exact h1
        · exact absurd h2 hvnull
        · exact absurd (by simp [h3]) hskip
        · exact absurd (by simp [h4]) hskip
      split
      case h_1 => exact getKey_setKey_ne m kv.2 hne
      case h_2 => exact getKey_setKey_ne m kv.2 hne
      case h_3 => rfl

/-- Convenient disjunction instance for preserving the `quelle` key. -/
theorem quelle_case (kv : String × Val) :
    kv.1 ≠ "quelle" ∨ kv.2 = Val.null ∨ kv.1 = "quelle" ∨ kv.1 = "id" := by
  by_cases h : kv.1 = "quelle"
  · exact Or.inr (Or.inr (Or.inl h))
  · exact Or.inl h

theorem getKey_quelle_mergeQuelleInto (e n : Obj) :
    getKey (mergeQuelleInto e n) "quelle"
      = some (.list (quelleBase e ++ quelleAdds n)) := by
  unfold mergeQuelleInto
  exact getKey_setKey_self e "quelle" _

theorem quelleBase_eq_of_getKey {e : Obj} {xs : List Val}
    (h : getKey e "quelle" = some (.list xs)) : quelleBase e = xs := by
  unfold quelleBase
  rw [h]

theorem quelleBase_mergeRaumEntities (e n : Obj) :
    quelleBase (mergeRaumEntities e n) = quelleBase e ++ quelleAdds n := by
  apply quelleBase_eq_of_getKey
  unfold mergeRaumEntities
  rw [foldl_preserve_getKey _ "quelle"
    (fun m kv => raumFieldStep_getKey _ _ m kv "quelle" (by decide) (quelle_case kv))]
  exact getKey_quelle_mergeQuelleInto e n

theorem quelleBase_mergeAnlageEntities (e n : Obj) :
    quelleBase (mergeAnlageEntities e n) = quelleBase e ++ quelleAdds n := by
  apply quelleBase_eq_of_getKey
  unfold mergeAnlageEntities
  rw [foldl_preserve_getKey _ "quelle"
    (fun m kv => anlageFieldStep_getKey m kv "quelle" (quelle_case kv))]
  exact getKey_quelle_mergeQuelleInto e n

theorem quelleBase_mergeGeraetEntities (e n : Obj) :
    quelleBase (mergeGeraetEntities e n) = quelleBase e ++ quelleAdds n := by
  apply quelleBase_eq_of_getKey
  unfold mergeGeraetEntities
  rw [foldl_preserve_getKey _ "quelle"
    (fun m kv => geraetFieldStep_getKey m kv "quelle" (quelle_case kv))]
  exact getKey_quelle_mergeQuelleInto e n

theorem quelleBase_mergeTerminEntities (e n : Obj) :
    quelleBase (mergeTerminEntities e n) = quelleBase e ++ quelleAdds n := by
  apply quelleBase_eq_of_getKey
  exact getKey_quelle_mergeQuelleInto e n

theorem preservesProv_foldl_append {β : Type} (step : List Obj → β → List Obj)
    (h : ∀ acc x, ∃ s, step acc x = acc ++ s) :
    ∀ (l : List β) (acc : List Obj), PreservesProv acc (l.foldl step acc) := by
  intro l
  induction l with
  | nil => intro acc; exact preservesProv_refl acc
  | cons x xs ih =>
      intro acc
      rw [List.foldl_cons]
      refine preservesProv_trans ?_ (ih (step acc x))
      obtain ⟨s, hs⟩ := h acc x
      rw [hs]
      exact preservesProv_append acc s

theorem fullTextStep_appends (si : Obj) (acc : List Obj) (x : Val) :
    ∃ s, fullTextStep si acc x = acc ++ s := by
  unfold fullTextStep
  split
  · split
    · exact ⟨_, rfl⟩
    · exact ⟨[], by simp⟩
  · exact ⟨_, rfl⟩
  · exact ⟨[], by simp⟩

theorem preservesProv_mergeFullText (current : List Obj) (extracted : Option Val) (si : Obj) :
    PreservesProv current (mergeFullText current extracted si) := by
  unfold mergeFullText
  split
  · exact preservesProv_refl _
  · split
    · exact preservesProv_append _ _
    · exact preservesProv_refl _
  · exact preservesProv_foldl_append _ (fullTextStep_appends si) _ _
  · exact preservesProv_refl _

/-! ## Conflict-recording machinery for the room merge -/

theorem foldl_preserve_getKey_mem {β : Type} (step : Obj → β → Obj) (k : String) :
    ∀ (l : List β), (∀ m x, x ∈ l → getKey (step m x) k = getKey m k) →
      ∀ m, getKey (l.foldl step m) k = getKey m k := by
  intro l
  induction l with
  | nil => intro _ m; rfl
  | cons x xs ih =>
      intro h m
      rw [List.foldl_cons, ih (fun m' x' hx' => h m' x' (List.mem_cons_of_mem x hx')),
        h m x (List.mem_cons_self x xs)]

/-- The invariant established once the conflicting key has been
processed: the target still carries the old value and the `konflikte`
dict carries the full conflict record. -/
def ConflictInv (k : String) (a b : Q) (qa qn : Val) (m : Obj) : Prop :=
  getKey m k = some (.num b) ∧
  getKey (asObjD (getV m "konflikte")) k = some (conflictRecord b a qa qn)

theorem raumFieldStep_establish (qa qn : Val) (m : Obj) (k : String) (a b : Q)
    (hkq : k ≠ "quelle") (hki : k ≠ "id") (hkk : k ≠ "konflikte")
    (hm : getKey m k = some (.num b))
    (htol : ((Q.sub a b).abs.gtb ⟨1, 100⟩) = true) :
    ConflictInv k a b qa qn (raumFieldStep qa qn m (k, .num a)) := by
  have hcond : ((k == "quelle" || k == "id") = true) = False := by
    simp [hkq, hki]
  unfold raumFieldStep
  simp only [hcond, if_false, hm, htol, if_true, eq_self_iff_true]
  constructor
  · exact (getKey_setKey_ne m _ (Ne.symm hkk)).trans hm
  · rw [getV_setKey_self]
    exact getKey_setKey_self _ k _

theorem raumFieldStep_konflikte (qa qn : Val) (m : Obj) (kv : String × Val) (k : String)
    (rec : Val) (hne : kv.1 ≠ k)
    (hinv : getKey (asObjD (getV m "konflikte")) k = some rec) :
    getKey (asObjD (getV (raumFieldStep qa qn m kv) "konflikte")) k = some rec := by
  unfold raumFieldStep
  split
  · exact hinv
  next hskip =>
    split
    · exact hinv
    next v hvnull =>
      split
      next heq =>
          by_cases hk : kv.1 = "konflikte"
          · rw [hk] at heq
            rw [getV, getKeyD, heq] at hinv
            simp [asObjD, getKey_nil] at hinv
          · rw [getV_setKey_ne m kv.2 hk]
            exact hinv
      next heq =>
          by_cases hk : kv.1 = "konflikte"
          · rw [hk] at heq
            rw [getV, getKeyD, heq] at hinv
            simp [asObjD, getKey_nil] at hinv
          · rw [getV_setKey_ne m kv.2 hk]
            exact hinv
      next old hold heq =>
        split
        next a' b' =>
          split
          · rw [getV_setKey_self]
            show getKey (setKey (asObjD (getV m "konflikte")) kv.1 _) k = some rec
            rw [getKey_setKey_ne _ _ hne]
            exact hinv
          · exact hinv
        next => exact hinv

theorem raumFieldStep_maintain (qa qn : Val) (m : Obj) (kv : String × Val) (k : String)
    (a b : Q)
    (hkq : k ≠ "quelle") (hki : k ≠ "id") (hkk : k ≠ "konflikte")
    (hall : kv.1 = k → kv.2 = Val.num a)
    (htol : ((Q.sub a b).abs.gtb ⟨1, 100⟩) = true)
    (hinv : ConflictInv k a b qa qn m) :
    ConflictInv k a b qa qn (raumFieldStep qa qn m kv) := by
  by_cases hk1 : kv.1 = k
  · have hv : kv.2 = Val.num a := hall hk1
    have hkv : kv = (k, Val.num a) := by
      cases kv; simp_all
    rw [hkv]
    exact raumFieldStep_establish qa qn m k a b hkq hki hkk hinv.1 htol
  · exact ⟨(raumFieldStep_getKey qa qn m kv k (Ne.symm hkk) (Or.inl hk1)).trans hinv.1,
      raumFieldStep_konflikte qa qn m kv k _ hk1 hinv.2⟩

theorem raumLoop_inv (qa qn : Val) (k : String) (a b : Q)
    (hkq : k ≠ "quelle") (hki : k ≠ "id") (hkk : k ≠ "konflikte")
    (htol : ((Q.sub a b).abs.gtb ⟨1, 100⟩) = true) :
    ∀ (l : List (String × Val)) (m : Obj),
      (∀ p ∈ l, p.1 = k → p.2 = Val.num a) →
      ConflictInv k a b qa qn m →
      ConflictInv k a b qa qn (l.foldl (raumFieldStep qa qn) m) := by
  intro l
  induction l with
  | nil => intro m _ h; exact h
  | cons kv rest ih =>
      intro m hall hinv
      rw [List.foldl_cons]
      exact ih _ (fun p hp => hall p (List.mem_cons_of_mem kv hp))
        (raumFieldStep_maintain qa qn m kv k a b hkq hki hkk
          (hall kv (List.mem_cons_self kv rest)) htol hinv)

theorem raumLoop_main (qa qn : Val) (k : String) (a b : Q)
    (hkq : k ≠ "quelle") (hki : k ≠ "id") (hkk : k ≠ "konflikte")
    (htol : ((Q.sub a b).abs.gtb ⟨1, 100⟩) = true) :
    ∀ (l : List (String × Val)) (m : Obj),
      (∀ p ∈ l, p.1 = k → p.2 = Val.num a) →
      getKey m k = some (.num b) →
      (∃ p ∈ l, p.1 = k) →
      ConflictInv k a b qa qn (l.foldl (raumFieldStep qa qn) m) := by
  intro l
  induction l with
  | nil => intro m _ _ hex; simp at hex
  | cons kv rest ih =>
      intro m hall hm hex
      rw [List.foldl_cons]
      by_cases hk1 : kv.1 = k
      · have hv : kv.2 = Val.num a := hall kv (List.mem_cons_self kv rest) hk1
        have hkv : kv = (k, Val.num a) := by
          cases kv; simp_all
        rw [hkv]
        exact raumLoop_inv qa qn k a b hkq hki hkk htol rest _
          (fun p hp => hall p (List.mem_cons_of_mem kv hp))
          (raumFieldStep_establish qa qn m k a b hkq hki hkk hm htol)
      · have hm' : getKey (raumFieldStep qa qn m kv) k = some (.num b) :=
          (raumFieldStep_getKey qa qn m kv k (Ne.symm hkk) (Or.inl hk1)).trans hm
        have hex' : ∃ p ∈ rest, p.1 = k := by
          obtain ⟨p, hp, hpk⟩ := hex
          rcases List.mem_cons.mp hp with rfl | hp'
          · exact absurd hpk hk1
          · exact ⟨p, hp', hpk⟩
        exact ih _ (fun p hp => hall p (List.mem_cons_of_mem kv hp)) hm' hex'

/-! ## Claims -/

/-- File metadata used by the concrete merge scenarios. -/
def fileA : ProjectFile := ⟨1, "A.xlsx", none, "excel", none⟩

/-- Second file of the concrete merge scenarios. -/
def fileB : ProjectFile := ⟨2, "B.docx", none, "word", none⟩

/-- A trivial similarity function used to instantiate witnesses (the
theorems hold for every similarity function). -/
def simZ : String → String → Q := fun _ _ => ⟨0, 1⟩

/-- Scenario room as extracted from file A (`area 20.0`). -/
def scnRaumA : Obj :=
  [("id", .str "R1"), ("name", .str "Office"), ("flaeche_m2", .num ⟨200, 10⟩)]

/-- Scenario room as extracted from file B (`area 20.3`). -/
def scnRaumB : Obj :=
  [("id", .str "R1"), ("name", .str "Office"), ("flaeche_m2", .num ⟨203, 10⟩)]

/-- The single room the scenario merge produces: old area kept, both
provenances accumulated, and the area conflict recorded with both
values and both provenances. -/
def scnMergedRaum : Obj :=
  [("id", .str "R1"), ("name", .str "Office"), ("flaeche_m2", .num ⟨200, 10⟩),
   ("quelle", .list [.obj (sourceInfo fileA), .obj (sourceInfo fileB)]),
   ("konflikte", .obj [("flaeche_m2",
      conflictRecord ⟨200, 10⟩ ⟨203, 10⟩ (.obj (sourceInfo fileA)) (.obj (sourceInfo fileB)))])]

/-- C1 (amended): for Room merges the claim holds as stated — when the
matched target and the incoming room both carry numeric values for a
scalar field differing by more than the tolerance `0.01`, the merged
room keeps the old value (no averaging, no overwrite), records a
conflict carrying both values and both provenances under
`konflikte[field]`, and its provenance list is the concatenation of both
sides' provenance; in particular the R1 scenario yields exactly one room
with the `flaeche_m2` conflict recorded and `provenance = [A, B]`, for
every similarity function.  (System and Device merges, by contrast, keep
the old value but record no conflict — see the counterexample.) -/
theorem claim_C1_conflict_preserved :
    (∀ (existing new : Obj) (k : String) (a b : Q),
      k ≠ "quelle" → k ≠ "id" → k ≠ "konflikte" →
      getKey existing k = some (.num b) →
      getKey new k = some (.num a) →
      (∀ p ∈ new, p.1 = k → p.2 = Val.num a) →
      ((Q.sub a b).abs.gtb ⟨1, 100⟩) = true →
      getKey (mergeRaumEntities existing new) k = some (.num b) ∧
      getKey (asObjD (getV (mergeRaumEntities existing new) "konflikte")) k
        = some (conflictRecord b a (quelleAltVal existing new)
            (getKeyD new "quelle" (.obj []))) ∧
      quelleBase (mergeRaumEntities existing new) = quelleBase existing ++ quelleAdds new) ∧
    (∀ sim : String → String → Q,
      mergeRaeume sim (mergeRaeume sim [] [scnRaumA] (sourceInfo fileA))
        [scnRaumB] (sourceInfo fileB) = [scnMergedRaum]) := by
  constructor
  · intro existing new k a b hkq hki hkk hex hnew hall htol
    have hex' : ∃ p ∈ new, p.1 = k := by
      cases hf : new.find? (fun q => q.1 == k) with
      | none => rw [getKey, hf] at hnew; simp at hnew
      | some p =>
          exact ⟨p, List.mem_of_find?_eq_some hf, by simpa using List.find?_some hf⟩
    have hinit : getKey (mergeQuelleInto existing new) k = some (.num b) :=
      (getKey_setKey_ne existing _ (Ne.symm hkq)).trans hex
    have hmain := raumLoop_main (quelleAltVal existing new)
      (getKeyD new "quelle" (.obj [])) k a b hkq hki hkk htol new
      (mergeQuelleInto existing new) hall hinit hex'
    exact ⟨hmain.1, hmain.2, quelleBase_mergeRaumEntities existing new⟩
  · intro sim
    rfl

/-- Scenario plant as extracted from file A (`power 10`). -/
def scnAnlA : Obj := [("id", .str "A1"), ("leistung_kw", .num ⟨10, 1⟩)]

/-- Scenario plant as extracted from file B (`power 20`). -/
def scnAnlB : Obj := [("id", .str "A1"), ("leistung_kw", .num ⟨20, 1⟩)]

/-- The plant the counterexample merge produces: old power kept, both
provenances accumulated, but no conflict of any kind recorded. -/
def scnMergedAnl : Obj :=
  [("id", .str "A1"), ("leistung_kw", .num ⟨10, 1⟩),
   ("quelle", .list [.obj (sourceInfo fileA), .obj (sourceInfo fileB)])]

/-- C1 counterexample: merging System A1 with power 10 from file A and
then System A1 with power 20 from file B — a numeric disagreement far
beyond the tolerance — yields one System that keeps the old value but
records no conflict at all (`konflikte` absent), so the claim's "for
every merge … a recorded conflict carries both values" fails for System
(and likewise Device) merges. -/
theorem claim_C1_counterexample :
    mergeAnlagen simZ (mergeAnlagen simZ [] [scnAnlA] (sourceInfo fileA))
        [scnAnlB] (sourceInfo fileB) = [scnMergedAnl] ∧
    getKey scnMergedAnl "konflikte" = none ∧
    getV scnMergedAnl "leistung_kw" = .num ⟨10, 1⟩ ∧
    ((Q.sub ⟨20, 1⟩ ⟨10, 1⟩).abs.gtb ⟨1, 100⟩) = true :=
  ⟨rfl, rfl, rfl, rfl⟩

/-- C1 witness: the amended theorem applied to the concrete scenario
entities, all hypotheses discharged at `flaeche_m2`, `a = 20.3`,
`b = 20.0`. -/
theorem claim_C1_witness :
    getKey (mergeRaumEntities (stampQuelle (sourceInfo fileA) scnRaumA)
        (stampQuelle (sourceInfo fileB) scnRaumB)) "flaeche_m2"
      = some (.num ⟨200, 10⟩) ∧
    getKey (asObjD (getV (mergeRaumEntities (stampQuelle (sourceInfo fileA) scnRaumA)
        (stampQuelle (sourceInfo fileB) scnRaumB)) "konflikte")) "flaeche_m2"
      = some (conflictRecord ⟨200, 10⟩ ⟨203, 10⟩
          (quelleAltVal (stampQuelle (sourceInfo fileA) scnRaumA)
            (stampQuelle (sourceInfo fileB) scnRaumB))
          (getKeyD (stampQuelle (sourceInfo fileB) scnRaumB) "quelle" (.obj []))) := by
  have h := claim_C1_conflict_preserved.1
    (stampQuelle (sourceInfo fileA) scnRaumA)
    (stampQuelle (sourceInfo fileB) scnRaumB)
    "flaeche_m2" ⟨203, 10⟩ ⟨200, 10⟩
    (by decide) (by decide) (by decide) rfl rfl
    (by
      intro p hp hpk
      rcases hp with _ | ⟨_, _ | ⟨_, _ | ⟨_, _ | ⟨_, hp⟩⟩⟩⟩
      · exact absurd hpk (by decide)
      · exact absurd hpk (by decide)
      · rfl
      · exact absurd hpk (by decide)
      · exact absurd hp (List.not_mem_nil p))
    rfl
  exact ⟨h.1, h.2.1⟩

/-- C2: for every entity held by the snapshot before a
`merge_extracted_data` call — across the six typed collections as well
as images, raw tables and free-text entries — the entity survives at its
position and the set of provenance entries attached to it afterwards is
a superset of the set attached before: merging only ever appends the new
file's provenance on a match, it never removes or replaces an existing
provenance entry. -/
theorem claim_C2_provenance_monotone (sim : String → String → Q) (cur : Snapshot)
    (ext : ExtractionResult) (f : ProjectFile) :
    PreservesProv cur.raeume (mergeExtractedData sim cur ext f).raeume ∧
    PreservesProv cur.anlagen (mergeExtractedData sim cur ext f).anlagen ∧
    PreservesProv cur.geraete (mergeExtractedData sim cur ext f).geraete ∧
    PreservesProv cur.anforderungen (mergeExtractedData sim cur ext f).anforderungen ∧
    PreservesProv cur.termine (mergeExtractedData sim cur ext f).termine ∧
    PreservesProv cur.leistungen (mergeExtractedData sim cur ext f).leistungen ∧
    PreservesProv cur.images (mergeExtractedData sim cur ext f).images ∧
    PreservesProv cur.raw_tables (mergeExtractedData sim cur ext f).raw_tables ∧
    PreservesProv cur.full_text (mergeExtractedData sim cur ext f).full_text := by
  refine ⟨?_, ?_, ?_, ?_, ?_, ?_, ?_, ?_, ?_⟩
  · cases hr : ext.raeume with
    | none => simpa [mergeExtractedData, hr] using preservesProv_refl cur.raeume
    | some ns =>
        have h := mergeEntityLoop_preserves (findDuplicateRaumIdx sim) mergeRaumEntities
          (sourceInfo f)
          (fun e n v hv => by
            rw [quelleBase_mergeRaumEntities]; exact List.mem_append_left _ hv)
          ns cur.raeume
        simpa [mergeExtractedData, mergeRaeume, hr] using h
  · cases hr : ext.anlagen with
    | none => simpa [mergeExtractedData, hr] using preservesProv_refl cur.anlagen
    | some ns =>
        have h := mergeEntityLoop_preserves (findDuplicateAnlageIdx sim) mergeAnlageEntities
          (sourceInfo f)
          (fun e n v hv => by
            rw [quelleBase_mergeAnlageEntities]; exact List.mem_append_left _ hv)
          ns cur.anlagen
        simpa [mergeExtractedData, mergeAnlagen, hr] using h
  · cases hr : ext.geraete with
    | none => simpa [mergeExtractedData, hr] using preservesProv_refl cur.geraete
    | some ns =>
        have h := mergeEntityLoop_preserves (findDuplicateGeraetIdx sim) mergeGeraetEntities
          (sourceInfo f)
          (fun e n v hv => by
            rw [quelleBase_mergeGeraetEntities]; exact List.mem_append_left _ hv)
          ns cur.geraete
        simpa [mergeExtractedData, mergeGeraete, hr] using h
  · cases hr : ext.anforderungen with
    | none => simpa [mergeExtractedData, hr] using preservesProv_refl cur.anforderungen
    | some ns =>
        simpa [mergeExtractedData, appendLoop, hr] using
          preservesProv_append cur.anforderungen (ns.map (stampQuelle (sourceInfo f)))
  · cases hr : ext.termine with
    | none => simpa [mergeExtractedData, hr] using preservesProv_refl cur.termine
    | some ns =>
        have h := mergeEntityLoop_preserves (findDuplicateTerminIdx sim) mergeTerminEntities
          (sourceInfo f)
          (fun e n v hv => by
            rw [quelleBase_mergeTerminEntities]; exact List.mem_append_left _ hv)
          ns cur.termine
        simpa [mergeExtractedData, mergeTermine, hr] using h
  · cases hr : ext.leistungen with
    | none => simpa [mergeExtractedData, hr] using preservesProv_refl cur.leistungen
    | some ns =>
        simpa [mergeExtractedData, appendLoop, hr] using
          preservesProv_append cur.leistungen (ns.map (stampQuelle (sourceInfo f)))
  · cases hr : ext.images with
    | none => simpa [mergeExtractedData, hr] using preservesProv_refl cur.images
    | some ns =>
        simpa [mergeExtractedData, hr] using
          preservesProv_append cur.images (ns.map (stampQuelle (sourceInfo f)))
  · cases hr : ext.raw_tables with
    | none => simpa [mergeExtractedData, mergeRawTables, hr] using
        preservesProv_refl cur.raw_tables
    | some ts =>
        simpa [mergeExtractedData, mergeRawTables, hr] using
          preservesProv_append cur.raw_tables (ts.map (stampQuelle (sourceInfo f)))
  · simpa [mergeExtractedData] using
      preservesProv_mergeFullText cur.full_text ext.full_text (sourceInfo f)

/-- Snapshot with one room already carrying file A's provenance, used by
the C2 witness. -/
def c2Snap : Snapshot :=
  ⟨[[("id", .str "R1"), ("quelle", .obj (sourceInfo fileA))]],
   [], [], [], [], [], [], [], [], [], none⟩

/-- Extraction result with a matching room, used by the C2 witness. -/
def c2Ext : ExtractionResult :=
  ⟨some [[("id", .str "R1")]], none, none, none, none, none, none, none, none, none⟩

/-- C2 witness: the theorem applied at a concrete merge, together with
the concrete evaluation showing the provenance list grew from
`[A]` to `[A, B]`. -/
theorem claim_C2_witness :
    PreservesProv c2Snap.raeume (mergeExtractedData simZ c2Snap c2Ext fileB).raeume ∧
    quelleBase ((mergeExtractedData simZ c2Snap c2Ext fileB).raeume.getD 0 [])
      = [.obj (sourceInfo fileA), .obj (sourceInfo fileB)] :=
  ⟨(claim_C2_provenance_monotone simZ c2Snap c2Ext fileB).1, rfl⟩

/-- Room with a non-positive area, the C3 failing input. -/
def c3Raum : Obj :=
  [("id", .str "R1"), ("name", .str "Buero"), ("flaeche_m2", .num ⟨-5, 1⟩)]

/-- Snapshot holding only `c3Raum`. -/
def c3Snap : Snapshot := ⟨[c3Raum], [], [], [], [], [], [], [], [], [], none⟩

/-- C3 (code bug): `_check_numerical_plausibility` does flag the
non-positive area as a `kritisch` plausibility issue, but
`validate_project_data` never files plausibility issues into `fehler`
(it only files their `warnung`/`hinweis` severities into
`warnungen`/`hinweise`), so on a snapshot whose only defect is a room
with `flaeche_m2 = -5` the returned report has an empty error list, an
empty warning list, an empty info list, and `konsistenz_ok = true` —
the `kritisch` issue is silently discarded, contradicting the claim and
the source's own severity taxonomy. -/
theorem claim_C3_plausibility_errors_dropped :
    checkNumericalPlausibility c3Snap
      = [⟨"Plausibilitätsfehler", .raumFlaecheUngueltig (.str "R1") ⟨-5, 1⟩,
          [.str "unbekannt"], "kritisch", .str "R1"⟩] ∧
    (validateProjectData none c3Snap).fehler = [] ∧
    (validateProjectData none c3Snap).warnungen = [] ∧
    (validateProjectData none c3Snap).hinweise = [] ∧
    (validateProjectData none c3Snap).konsistenz_ok = true :=
  ⟨rfl, rfl, rfl, rfl, rfl⟩

/-- The issue `_check_reference_integrity` emits for a device whose
plant reference dangles. -/
def danglingAnlageIssue (geraet : Obj) : ValidationIssue :=
  ⟨"Referenzfehler",
   .geraetAnlageRef (getV geraet "id") (getV geraet "zugehoerige_anlage"),
   fundstellenOf [geraet], "kritisch", getV geraet "id"⟩

/-- C4: whenever a device references a plant id absent from the plant
collection, the reference check emits exactly the one dangling-plant
issue for that device — category `Referenzfehler`, severity `kritisch` —
and that issue is contained in the error list of the validation
report. -/
theorem claim_C4_dangling_system_reference (spec : Option OfferteSpec) (data : Snapshot)
    (g : Obj) (hmem : g ∈ data.geraete)
    (ha : (getV g "zugehoerige_anlage").truthy = true)
    (hdang : valMem (getV g "zugehoerige_anlage") (idsOf data.anlagen) = false) :
    geraetRefIssues (idsOf data.anlagen) (idsOf data.raeume) g = [danglingAnlageIssue g] ∧
    (danglingAnlageIssue g).kategorie = "Referenzfehler" ∧
    (danglingAnlageIssue g).schweregrad = "kritisch" ∧
    danglingAnlageIssue g ∈ (validateProjectData spec data).fehler := by
  have h1 : geraetRefIssues (idsOf data.anlagen) (idsOf data.raeume) g
      = [danglingAnlageIssue g] := by
    unfold geraetRefIssues danglingAnlageIssue
    simp [ha, hdang]
  refine ⟨h1, rfl, rfl, ?_⟩
  have href : danglingAnlageIssue g ∈ checkReferenceIntegrity data := by
    unfold checkReferenceIntegrity
    refine List.mem_append.mpr (Or.inl ?_)
    refine List.mem_append.mpr (Or.inl ?_)
    refine List.mem_append.mpr (Or.inl ?_)
    exact List.mem_flatMap.mpr ⟨g, hmem, by rw [h1]; exact List.mem_singleton_self _⟩
  show danglingAnlageIssue g ∈
    (checkDataConsistency data).filter (fun i => i.schweregrad == "kritisch")
    ++ (checkReferenceIntegrity data).filter (fun i => i.schweregrad == "kritisch")
    ++ (match spec with
        | some s => checkOfferteSpec s data
        | none => []).filter (fun i => i.schweregrad == "kritisch")
  refine List.mem_append.mpr (Or.inl (List.mem_append.mpr (Or.inr ?_)))
  exact List.mem_filter.mpr ⟨href, rfl⟩

/-- Device with a dangling plant reference, the C4 witness input. -/
def c4Ger : Obj := [("id", .str "G1"), ("zugehoerige_anlage", .str "S9")]

/-- Snapshot holding only `c4Ger` (no plants at all, so `S9` dangles). -/
def c4Snap : Snapshot := ⟨[], [], [c4Ger], [], [], [], [], [], [], [], none⟩

/-- C4 witness: the theorem applied to `c4Ger` inside `c4Snap`. -/
theorem claim_C4_witness :
    geraetRefIssues (idsOf c4Snap.anlagen) (idsOf c4Snap.raeume) c4Ger
      = [danglingAnlageIssue c4Ger] ∧
    danglingAnlageIssue c4Ger ∈ (validateProjectData none c4Snap).fehler := by
  have h := claim_C4_dangling_system_reference none c4Snap c4Ger
    (List.mem_singleton_self _) rfl rfl
  exact ⟨h.1, h.2.2.2⟩

/-- C6: after every merge the raw-table collection is exactly the old
collection followed by every extracted raw table (each
provenance-stamped): nothing is removed, modified in place, or
deduplicated, and nothing extracted is dropped. -/
theorem claim_C6_raw_tables_append_only (sim : String → String → Q) (cur : Snapshot)
    (ext : ExtractionResult) (f : ProjectFile) :
    (mergeExtractedData sim cur ext f).raw_tables
      = cur.raw_tables ++ (ext.raw_tables.getD []).map (stampQuelle (sourceInfo f)) := by
  cases hr : ext.raw_tables with
  | none => simp [mergeExtractedData, mergeRawTables, hr]
  | some ts => simp [mergeExtractedData, mergeRawTables, hr]

/-- C7: if the target entity carries a non-null value for a field other
than the bookkeeping fields `quelle` (the provenance list) and
`konflikte` (the conflict record), and every occurrence of that field in
the incoming dict is null (in particular when the field is absent), both
the Room merge and the Device merge keep the target's value
unchanged. -/
theorem claim_C7_null_never_erases (existing new : Obj) (F : String) (v : Val)
    (hFq : F ≠ "quelle") (hFk : F ≠ "konflikte")
    (hv : getKey existing F = some v) (_hvn : v ≠ Val.null)
    (hnew : ∀ p ∈ new, p.1 = F → p.2 = Val.null) :
    getKey (mergeRaumEntities existing new) F = some v ∧
    getKey (mergeGeraetEntities existing new) F = some v := by
  have hinit : getKey (mergeQuelleInto existing new) F = some v :=
    (getKey_setKey_ne existing _ (Ne.symm hFq)).trans hv
  constructor
  · unfold mergeRaumEntities
    rw [foldl_preserve_getKey_mem _ F new
      (fun m kv hkv => raumFieldStep_getKey _ _ m kv F (Ne.symm hFk) (by
        by_cases h : kv.1 = F
        · exact Or.inr (Or.inl (hnew kv hkv h))
        · exact Or.inl h)) _]
    exact hinit
  · unfold mergeGeraetEntities
    rw [foldl_preserve_getKey_mem _ F new
      (fun m kv hkv => geraetFieldStep_getKey m kv F (by
        by_cases h : kv.1 = F
        · exact Or.inr (Or.inl (hnew kv hkv h))
        · exact Or.inl h)) _]
    exact hinit

/-- Target entity of the C7 witness. -/
def c7Ex : Obj := [("id", .str "R1"), ("flaeche_m2", .num ⟨20, 1⟩)]

/-- Incoming entity of the C7 witness: the area is explicitly null. -/
def c7New : Obj :=
  [("id", .str "R1"), ("flaeche_m2", .null), ("hoehe_m", .num ⟨3, 1⟩)]

/-- C7 witness: the theorem applied at `flaeche_m2 = 20` vs `null`. -/
theorem claim_C7_witness :
    getKey (mergeRaumEntities c7Ex c7New) "flaeche_m2" = some (.num ⟨20, 1⟩) ∧
    getKey (mergeGeraetEntities c7Ex c7New) "flaeche_m2" = some (.num ⟨20, 1⟩) := by
  refine claim_C7_null_never_erases c7Ex c7New "flaeche_m2" (.num ⟨20, 1⟩)
    (by decide) (by decide) rfl (fun h => Val.noConfusion h) ?_
  intro p hp hpk
  rcases hp with _ | ⟨_, _ | ⟨_, _ | ⟨_, hp⟩⟩⟩
  · exact absurd hpk (by decide)
  · rfl
  · exact absurd hpk (by decide)
  · exact absurd hp (List.not_mem_nil p)

/-- C9: the validator is a pure function of the snapshot and the loaded
rule document — validating equal inputs yields identical error, warning
and info lists and the same pass flag. -/
theorem claim_C9_validator_deterministic (spec₁ spec₂ : Option OfferteSpec)
    (d₁ d₂ : Snapshot) (hs : spec₁ = spec₂) (hd : d₁ = d₂) :
    validateProjectData spec₁ d₁ = validateProjectData spec₂ d₂ := by
  subst hs; subst hd; rfl

/-- C9 witness: two invocations on the same concrete snapshot agree. -/
theorem claim_C9_witness :
    validateProjectData none c3Snap = validateProjectData none c3Snap :=
  claim_C9_validator_deterministic none none c3Snap c3Snap rfl rfl

/-- C10 (implicit behaviour of the device block of
`_check_reference_integrity`): at most one issue is ever emitted per
device; when both the plant and the room reference dangle only the
plant-reference error is produced (the room reference is not checked);
and the missing-assignment warning appears exactly when both references
are falsy. -/
theorem claim_C10_at_most_one_issue_per_device (aIds rIds : List Val) (g : Obj) :
    (geraetRefIssues aIds rIds g).length ≤ 1 ∧
    ((getV g "zugehoerige_anlage").truthy = true →
     (getV g "zugehoeriger_raum").truthy = true →
     valMem (getV g "zugehoerige_anlage") aIds = false →
     valMem (getV g "zugehoeriger_raum") rIds = false →
     geraetRefIssues aIds rIds g = [danglingAnlageIssue g]) ∧
    ((∃ i ∈ geraetRefIssues aIds rIds g, i.kategorie = "Fehlende Angabe") ↔
      ((getV g "zugehoerige_anlage").truthy = false ∧
       (getV g "zugehoeriger_raum").truthy = false)) := by
  refine ⟨?_, ?_, ?_⟩
  · unfold geraetRefIssues
    dsimp only
    split
    · simp
    · split
      · simp
      · split <;> simp
  · intro h1 h2 h3 h4
    unfold geraetRefIssues danglingAnlageIssue
    simp [h1, h2, h3, h4]
  · unfold geraetRefIssues
    dsimp only
    by_cases h1 : (getV g "zugehoerige_anlage").truthy
      <;> by_cases h2 : (getV g "zugehoeriger_raum").truthy
      <;> by_cases h3 : valMem (getV g "zugehoerige_anlage") aIds
      <;> by_cases h4 : valMem (getV g "zugehoeriger_raum") rIds
      <;> simp [h1, h2, h3, h4]

/-- Device with both references dangling, the C10 witness input. -/
def c10Ger : Obj :=
  [("id", .str "G2"), ("zugehoerige_anlage", .str "S9"), ("zugehoeriger_raum", .str "R9")]

/-- C10 witness: with both references dangling only the plant-reference
error is emitted. -/
theorem claim_C10_witness :
    geraetRefIssues [] [] c10Ger = [danglingAnlageIssue c10Ger] :=
  (claim_C10_at_most_one_issue_per_device [] [] c10Ger).2.1 rfl rfl rfl rfl

/-! ## Header-row machinery (C8) -/

theorem find?_congr_mem {α : Type} {p q : α → Bool} :
    ∀ {l : List α}, (∀ x ∈ l, p x = q x) → l.find? p = l.find? q := by
  intro l
  induction l with
  | nil => intro _; rfl
  | cons x xs ih =>
      intro h
      rw [List.find?_cons, List.find?_cons, h x (List.mem_cons_self x xs)]
      cases q x
      · exact ih (fun y hy => h y (List.mem_cons_of_mem x hy))
      · rfl

theorem findIdx?_take_shift {α : Type} (d : α) (q : α → Bool) :
    ∀ (l : List α) (n start : Nat),
      ((l.take n).findIdx? q).map (fun i => i + start)
        = (List.range' start (min n l.length)).find?
            (fun i => q ((l.get? (i - start)).getD d)) := by
  intro l
  induction l with
  | nil => intro n start; simp
  | cons a l ih =>
      intro n start
      cases n with
      | zero => simp
      | succ n =>
          have hmin : min (n + 1) (a :: l).length = (min n l.length) + 1 := by
            simp [List.length_cons, Nat.succ_min_succ]
          rw [List.take_succ_cons, List.findIdx?_cons, hmin, List.range'_succ,
            List.find?_cons]
          have h0 : (((a :: l).get? (start - start)).getD d) = a := by
            simp [Nat.sub_self]
          rw [h0]
          cases hqa : q a with
          | true => simp
          | false =>
              simp only [Bool.false_eq_true, if_false, List.findIdx?_succ, Option.map_map]
              have hcomp : ((fun i => i + start) ∘ fun i => i + 1)
                  = fun i => i + (start + 1) := by
                funext i
                simp [Function.comp, Nat.add_assoc, Nat.add_comm 1 start]
              rw [hcomp, ih n (start + 1)]
              refine find?_congr_mem ?_
              intro i hi
              have hle : start + 1 ≤ i := (List.mem_range'_1.mp hi).1
              have hidx : i - start = (i - (start + 1)) + 1 := by omega
              rw [hidx, List.get?_cons_succ]

theorem headerRowPred_eq (r : List Val) :
    (!r.isEmpty && r.any cellHasContent) = r.any cellHasContent := by
  cases r <;> simp

/-- C8 (amended): `_find_header_row` returns the first row among the
first 20 whose cells include at least one truthy cell with non-blank
rendering — non-blank text or a non-zero number/date, not only text
cells as the specification words it — falling back to row 1 whenever the
sheet has at least one row. -/
theorem claim_C8_header_row (sheet : Sheet) :
    findHeaderRow sheet = amendedHeaderRow sheet := by
  unfold findHeaderRow amendedHeaderRow MAX_HEADER_SEARCH_ROWS
  have h := findIdx?_take_shift ([] : List Val)
    (fun row => !row.isEmpty && row.any cellHasContent) sheet 20 1
  have h2 : (List.range' 1 (min 20 sheet.length)).find?
        (fun i => !((sheet.get? (i - 1)).getD []).isEmpty
          && ((sheet.get? (i - 1)).getD []).any cellHasContent)
      = (List.range' 1 (min 20 sheet.length)).find?
        (fun i => ((sheet.get? (i - 1)).getD []).any cellHasContent) :=
    find?_congr_mem (fun i _ => headerRowPred_eq _)
  rw [h2] at h
  cases hf : (sheet.take 20).findIdx? (fun row => !row.isEmpty && row.any cellHasContent) with
  | none =>
      rw [hf] at h
      simp only [Option.map_none'] at h
      rw [← h]
  | some idx =>
      rw [hf] at h
      simp only [Option.map_some'] at h
      rw [← h]

/-- C8 counterexample: on a sheet whose first row holds only the number
5 and whose second row holds the text `Name`, the source picks row 1
(the numeric cell counts), while the specification's
"first row with at least one non-empty text cell" picks row 2. -/
theorem claim_C8_counterexample :
    findHeaderRow [[.num ⟨5, 1⟩], [.str "Name"]] = some 1 ∧
    specHeaderRow [[.num ⟨5, 1⟩], [.str "Name"]] = some 2 :=
  ⟨rfl, rfl⟩

/-! ## Row-bound machinery (C5) -/

theorem rawRowsLoop_length_le (hs : List String) :
    ∀ (l : List (List Val)) (c : Nat), (rawRowsLoop hs l c).length ≤ l.length := by
  intro l
  induction l with
  | nil => intro c; simp [rawRowsLoop]
  | cons row rest ih =>
      intro c
      unfold rawRowsLoop
      dsimp only
      split
      · split
        · simp
        · exact le_trans (ih (c + 1)) (Nat.le_succ _)
      · split
        · simpa using Nat.succ_le_succ (ih 0)
        · exact le_trans (ih 0) (Nat.le_succ _)

theorem rawRowsLoop_early_stop (hs : List String) :
    ∀ (rows : List (List Val)), rows ≠ [] →
      (∀ r ∈ rows, (r.any Val.truthy) = false) →
      ∀ (rest : List (List Val)) (c : Nat),
        c + rows.length = MAX_CONSECUTIVE_EMPTY_ROWS →
        rawRowsLoop hs (rows ++ rest) c = [] := by
  intro rows
  induction rows with
  | nil => intro h; exact absurd rfl h
  | cons row rs ih =>
      intro _ hempty rest c hc
      rw [List.cons_append]
      unfold rawRowsLoop
      rw [hempty row (List.mem_cons_self row rs)]
      simp only [Bool.not_false, if_true]
      by_cases hrs : rs = []
      · subst hrs
        have : MAX_CONSECUTIVE_EMPTY_ROWS ≤ c + 1 := by
          simp at hc; omega
        rw [if_pos this]
      · have hlt : ¬(MAX_CONSECUTIVE_EMPTY_ROWS ≤ c + 1) := by
          have hpos : 0 < rs.length := List.length_pos.mpr hrs
          simp only [List.length_cons] at hc
          omega
        rw [if_neg hlt]
        exact ih hrs (fun r hr => hempty r (List.mem_cons_of_mem row hr)) rest (c + 1)
          (by simp only [List.length_cons] at hc; omega)

theorem rawRowsLoop_const_len (hs : List String) (r : List Val)
    (hr : (r.any Val.truthy) = true)
    (hrd : rowDictTruthy (rowDict hs r) = true) :
    ∀ (n c : Nat), (rawRowsLoop hs (List.replicate n r) c).length = n := by
  intro n
  induction n with
  | zero => intro c; simp [rawRowsLoop]
  | succ n ih =>
      intro c
      rw [List.replicate_succ]
      unfold rawRowsLoop
      rw [hr]
      simp only [Bool.not_true, Bool.false_eq_true, if_false, hrd, if_pos]
      simp [ih 0]

theorem sheetMaxCol_replicate (r : List Val) :
    ∀ (n : Nat) (m : Nat),
      (List.replicate n r).foldl (fun acc row => max acc row.length) m
        = if n = 0 then m else max m r.length := by
  intro n
  induction n with
  | zero => intro m; simp
  | succ n ih =>
      intro m
      rw [List.replicate_succ, List.foldl_cons, ih]
      by_cases hn : n = 0 <;> simp [hn, Nat.max_assoc]

theorem foldl_append_le {α β : Type} (step : List α → β → List α)
    (h : ∀ acc b, (step acc b).length ≤ acc.length + 1) :
    ∀ (l : List β) (acc : List α), (l.foldl step acc).length ≤ acc.length + l.length := by
  intro l
  induction l with
  | nil => intro acc; simp
  | cons b bs ih =>
      intro acc
      rw [List.foldl_cons]
      refine le_trans (ih (step acc b)) ?_
      have := h acc b
      simp only [List.length_cons]
      omega

theorem raumRowStep_length_le (sheet : Sheet) (si : Obj) (title : String)
    (cm : List (String × Nat)) (raumCol : Nat) (acc : List Obj) (row_idx : Nat) :
    (raumRowStep sheet si title cm raumCol acc row_idx).length ≤ acc.length + 1 := by
  unfold raumRowStep
  dsimp only
  repeat' split
  all_goals try simp only [List.length_append, List.length_cons, List.length_nil]
  all_goals omega

theorem extractRaeume_length_le (sheet : Sheet) (si : Obj) (title : String) :
    (extractRaeume sheet si title).length ≤ MAX_ROWS_TO_EXTRACT := by
  unfold extractRaeume
  split
  · simp
  next header_row _ =>
    dsimp only
    split
    · simp
    next raumCol _ =>
      refine le_trans (foldl_append_le _
        (raumRowStep_length_le sheet si title _ raumCol) _ []) ?_
      rw [List.length_range']
      simp only [List.length_nil, Nat.zero_add]
      omega

theorem rawTableDataRows_length_le (sheet : Sheet) :
    (rawTableDataRows sheet).length ≤ MAX_ROWS_TO_EXTRACT + 1 := by
  unfold rawTableDataRows
  refine le_trans (rawRowsLoop_length_le _ _ _) ?_
  unfold rawTableSlice
  rw [List.length_take]
  refine le_trans (Nat.min_le_left _ _) ?_
  unfold rawMaxRowToProcess
  have := Nat.min_le_right sheet.length (rawStartDataRow sheet + MAX_ROWS_TO_EXTRACT)
  omega

/-- C5 (amended): typed entity extraction visits at most 10,000 data
rows after the header row (with no consecutive-empty early stop), while
raw-table capture visits the rows `header+1 .. min(max_row,
header+1+10,000)` — up to 10,001 data rows, one more than the claim
states — and stops early once 100 consecutive empty rows are
encountered. -/
theorem claim_C5_row_bounds :
    (∀ (sheet : Sheet) (si : Obj) (title : String),
      (extractRaeume sheet si title).length ≤ MAX_ROWS_TO_EXTRACT) ∧
    (∀ sheet : Sheet, (rawTableDataRows sheet).length ≤ MAX_ROWS_TO_EXTRACT + 1) ∧
    (∀ (hs : List String) (rows rest : List (List Val)),
      rows ≠ [] →
      rows.length = MAX_CONSECUTIVE_EMPTY_ROWS →
      (∀ r ∈ rows, (r.any Val.truthy) = false) →
      rawRowsLoop hs (rows ++ rest) 0 = []) :=
  ⟨extractRaeume_length_le,
   rawTableDataRows_length_le,
   fun hs rows rest hne hlen hempty =>
     rawRowsLoop_early_stop hs rows hne hempty rest 0 (by omega)⟩

/-- Sheet with a `Raum` header in row 1, 101 consecutive empty rows,
and a data row at row 103 — the typed-extraction counterexample. -/
def c5Sheet : Sheet :=
  [[Val.str "Raum"]] ++ List.replicate 101 [Val.null] ++ [[Val.str "Buero"]]

/-- Sheet of 10,003 identical non-empty rows — the raw-capture
counterexample. -/
def c5BigSheet : Sheet := List.replicate 10003 [Val.str "x"]

/-- C5 counterexample: (1) typed extraction does not stop at 100
consecutive empty rows — on `c5Sheet` it still extracts the room in row
103 after 101 consecutive empty rows; (2) raw-table capture on
`c5BigSheet` (header row 1, data through row 10,003) emits 10,001 data
rows, exceeding the claimed 10,000-row bound. -/
theorem claim_C5_counterexample :
    (extractRaeume c5Sheet [] "Blatt1").map (fun r => getV r "name")
      = [.str "Buero"] ∧
    (rawTableDataRows c5BigSheet).length = 10001 := by
  constructor
  · rfl
  · have hlen : c5BigSheet.length = 10003 := by
      unfold c5BigSheet; exact List.length_replicate 10003 _
    have hhr : rawHeaderRow c5BigSheet = 1 := rfl
    have hstart : rawStartDataRow c5BigSheet = 2 := by
      unfold rawStartDataRow
      rw [hhr, hlen]
      norm_num
    have hstop : rawMaxRowToProcess c5BigSheet = 10002 := by
      unfold rawMaxRowToProcess
      rw [hstart, hlen]
      unfold MAX_ROWS_TO_EXTRACT
      omega
    have hmax : sheetMaxCol c5BigSheet = 1 := by
      unfold sheetMaxCol c5BigSheet
      rw [sheetMaxCol_replicate]
      simp
    have hheaders : rawTableHeaders c5BigSheet = ["x"] := by
      unfold rawTableHeaders
      rw [hmax, hhr]
      rfl
    have hslice : rawTableSlice c5BigSheet = List.replicate 10001 [Val.str "x"] := by
      unfold rawTableSlice
      rw [hstart, hstop]
      unfold c5BigSheet
      rw [List.drop_replicate, List.take_replicate]
      have harith : (10002 + 1 - 2) ⊓ (10003 - (2 - 1)) = 10001 := by omega
      rw [harith]
    unfold rawTableDataRows
    rw [hheaders, hslice]
    exact rawRowsLoop_const_len ["x"] [Val.str "x"] rfl rfl 10001 0

/-- C5 witness: the amended bounds applied at concrete inputs — the
early stop applied to 100 empty rows followed by a data row, and both
row bounds at `c5Sheet`. -/
theorem claim_C5_witness :
    rawRowsLoop ["h"] (List.replicate 100 [Val.null] ++ [[Val.str "y"]]) 0 = [] ∧
    (extractRaeume c5Sheet [] "Blatt1").length ≤ MAX_ROWS_TO_EXTRACT ∧
    (rawTableDataRows c5Sheet).length ≤ MAX_ROWS_TO_EXTRACT + 1 := by
  refine ⟨?_, claim_C5_row_bounds.1 c5Sheet [] "Blatt1",
    claim_C5_row_bounds.2.1 c5Sheet⟩
  refine claim_C5_row_bounds.2.2 ["h"] (List.replicate 100 [Val.null]) [[Val.str "y"]]
    (by simp) (by simp [MAX_CONSECUTIVE_EMPTY_ROWS]) ?_
  intro r hr
  have : r = [Val.null] := List.eq_of_mem_replicate hr
  rw [this]
  rfl

end OffertTool
